import Mathlib

/-!
Verification development for the RealGold workbook-patcher scripts.

The repository is a collection of one-off Python scripts that open a
spreadsheet workbook, overwrite specific cell values and formula strings,
and save a new file.  This file gives a shallow embedding of the relevant
data model (workbooks as functions from sheet name, column index and row
number to cell values) and of the scripts' phases, and proves or refutes
the frozen claims about them.

Conventions of the embedding:
 * A cell value is `Value.vnone` (Python `None` / absent cell),
   `Value.vstr` (a Python string, including formula text, which is any
   string beginning with `=`), `Value.vnum` (an exact rational standing
   for a Python numeric literal such as `0.0001`), `Value.vdate` (a
   `datetime` value, recorded as year/month since all dates written have
   day 1), or `Value.vgold` (an opaque token for the floating-point
   gold-price value `2892.6 * (1.03 ** (1/12)) ** k`; no claim inspects
   these floats, so they are kept abstract rather than modelled as reals).
 * Sheet access `wb['Name']` raises `KeyError` in `openpyxl` when the
   sheet is absent; phases that perform such an access are embedded as
   `Option`-valued functions returning `none` on that path (an exception
   propagating out of the phase).
 * Scripts' `main`/`__main__` behaviour is embedded as a function from an
   environment (input-file existence, input workbook, current wall-clock
   time) to an observable `RunResult` (exit code, whether the output file
   was written, and how errors surfaced).
-/

/-- Cell values of the embedded workbook model. -/
inductive Value where
  | vnone : Value
  | vstr : String → Value
  | vnum : ℚ → Value
  | vdate : Nat → Nat → Value
  | vgold : Nat → Value
deriving DecidableEq, Repr

/-- A workbook: list of sheet names, a total cell-contents function
(sheet name, 1-based column index, 1-based row number), per-sheet
dimensions as tracked by `openpyxl` (`max_column` / `max_row`), and the
list of (sheet, cell-reference) pairs covered by a list-type data
validation (the dropdowns attached by `dv.add`). -/
structure Workbook where
  sheetnames : List String
  cell : String → Nat → Nat → Value
  maxCol : String → Nat
  maxRow : String → Nat
  dvRefs : List (String × String)

/-- Assigning a value to one cell (`ws[ref] = v` in `openpyxl`); the
dimensions of the touched sheet grow to cover the written cell. -/
def setCell (wb : Workbook) (s : String) (c r : Nat) (v : Value) : Workbook :=
  { wb with
    cell := fun s' c' r' => if s' = s ∧ c' = c ∧ r' = r then v else wb.cell s' c' r'
    maxCol := fun s' => if s' = s then max (wb.maxCol s') c else wb.maxCol s'
    maxRow := fun s' => if s' = s then max (wb.maxRow s') r else wb.maxRow s' }

/-- The effect of `ws.delete_rows(1, ws.max_row)`: every cell of the named
sheet is removed. -/
def clearSheet (wb : Workbook) (s : String) : Workbook :=
  { wb with
    cell := fun s' c' r' => if s' = s then Value.vnone else wb.cell s' c' r'
    maxCol := fun s' => if s' = s then 0 else wb.maxCol s'
    maxRow := fun s' => if s' = s then 0 else wb.maxRow s' }

/-- `wb.create_sheet(name)`: the new sheet has no cells of its own. -/
def createSheet (wb : Workbook) (s : String) : Workbook :=
  { wb with sheetnames := wb.sheetnames ++ [s] }

/-- `del wb[name]`: the sheet and all its cells are removed. -/
def deleteSheet (wb : Workbook) (s : String) : Workbook :=
  { sheetnames := wb.sheetnames.filter (fun t => t != s)
    cell := fun s' c' r' => if s' = s then Value.vnone else wb.cell s' c' r'
    maxCol := fun s' => if s' = s then 0 else wb.maxCol s'
    maxRow := fun s' => if s' = s then 0 else wb.maxRow s'
    dvRefs := wb.dvRefs }

/-- Well-formedness of a workbook as loaded by `openpyxl`: only sheets in
`sheetnames` hold cells, and every cell lies inside the sheet's reported
dimensions (1-based). -/
def Workbook.wf (wb : Workbook) : Prop :=
  ∀ s c r, (s ∉ wb.sheetnames ∨ c = 0 ∨ r = 0 ∨ wb.maxCol s < c ∨ wb.maxRow s < r) →
    wb.cell s c r = Value.vnone

theorem cell_setCell (wb : Workbook) (s : String) (c r : Nat) (v : Value)
    (s' : String) (c' r' : Nat) :
    (setCell wb s c r v).cell s' c' r' =
      if s' = s ∧ c' = c ∧ r' = r then v else wb.cell s' c' r' := rfl

theorem sheetnames_setCell (wb : Workbook) (s : String) (c r : Nat) (v : Value) :
    (setCell wb s c r v).sheetnames = wb.sheetnames := rfl

theorem dvRefs_setCell (wb : Workbook) (s : String) (c r : Nat) (v : Value) :
    (setCell wb s c r v).dvRefs = wb.dvRefs := rfl

/-- The workbook with no sheets and no cells. -/
def emptyWorkbook : Workbook :=
  { sheetnames := []
    cell := fun _ _ _ => Value.vnone
    maxCol := fun _ => 0
    maxRow := fun _ => 0
    dvRefs := [] }

/-! ### Generic lemmas about loops of cell writes

Each script phase is a Python `for` loop embedded as a `List.foldl` whose
body performs a few `setCell` writes.  The two lemmas below read off the
final contents of one cell: if no iteration touches the cell it is
unchanged, and if exactly the iteration for index `j` writes `v` there
(every other iteration leaving the cell alone) the final content is `v`.
Both carry an invariant `P` so that a body may need facts preserved along
the loop (e.g. that a sheet name stays present, or that the column the
body reads from is never overwritten). -/

theorem foldl_cell_frame {α : Type} (body : Workbook → α → Workbook) (l : List α)
    (P : Workbook → Prop) (s : String) (c r : Nat) :
    ∀ wb : Workbook, P wb →
    (∀ w k, k ∈ l → P w → P (body w k)) →
    (∀ w k, k ∈ l → P w → (body w k).cell s c r = w.cell s c r) →
    (l.foldl body wb).cell s c r = wb.cell s c r := by
  induction l with
  | nil => intro wb _ _ _; rfl
  | cons a t ih =>
    intro wb hP hpres hfr
    simp only [List.foldl_cons]
    rw [ih (body wb a) (hpres wb a (List.mem_cons_self a t) hP)
      (fun w k hk hw => hpres w k (List.mem_cons_of_mem a hk) hw)
      (fun w k hk hw => hfr w k (List.mem_cons_of_mem a hk) hw)]
    exact hfr wb a (List.mem_cons_self a t) hP

theorem foldl_cell_write {α : Type} [DecidableEq α] (body : Workbook → α → Workbook)
    (l : List α) (P : Workbook → Prop) (s : String) (c r : Nat) (v : Value) (j : α) :
    ∀ wb : Workbook, P wb → j ∈ l →
    (∀ w k, k ∈ l → P w → P (body w k)) →
    (∀ w, P w → (body w j).cell s c r = v) →
    (∀ w k, k ∈ l → k ≠ j → P w → (body w k).cell s c r = w.cell s c r) →
    (l.foldl body wb).cell s c r = v := by
  induction l with
  | nil => intro wb _ hj; cases hj
  | cons a t ih =>
    intro wb hP hj hpres hw hfr
    simp only [List.foldl_cons]
    by_cases hjt : j ∈ t
    · exact ih (body wb a) (hpres wb a (List.mem_cons_self a t) hP) hjt
        (fun w k hk hk' => hpres w k (List.mem_cons_of_mem a hk) hk')
        hw
        (fun w k hk hne hk' => hfr w k (List.mem_cons_of_mem a hk) hne hk')
    · have hja : j = a := by
        rcases List.mem_cons.mp hj with h | h
        · exact h
        · exact absurd h hjt
      subst hja
      rw [foldl_cell_frame body t P s c r (body wb j)
        (hpres wb j (List.mem_cons_self j t) hP)
        (fun w k hk hk' => hpres w k (List.mem_cons_of_mem j hk) hk')
        (fun w k hk hk' => hfr w k (List.mem_cons_of_mem j hk)
          (fun he => hjt (he ▸ hk)) hk')]
      exact hw wb hP

/-- Invariants preserved by every step survive the whole loop. -/
theorem foldl_preserve {α : Type} (body : Workbook → α → Workbook) (l : List α)
    (P : Workbook → Prop) :
    ∀ wb : Workbook, P wb → (∀ w k, k ∈ l → P w → P (body w k)) →
    P (l.foldl body wb) := by
  induction l with
  | nil => intro wb hP _; exact hP
  | cons a t ih =>
    intro wb hP hpres
    simp only [List.foldl_cons]
    exact ih (body wb a) (hpres wb a (List.mem_cons_self a t) hP)
      (fun w k hk hw => hpres w k (List.mem_cons_of_mem a hk) hw)

/-! ### Strings, numbers, dates -/

/-- Decimal digits of a natural number, most significant first, written
with explicit fuel (the fuel `n+1` always suffices) so that the kernel
can evaluate it; embeds Python's `str(int)` / f-string formatting of the
integers spliced into formula strings. -/
def natToDecAux : Nat → Nat → List Char → List Char
  | 0, _, acc => acc
  | f + 1, n, acc =>
    if n < 10 then Char.ofNat (48 + n % 10) :: acc
    else natToDecAux f (n / 10) (Char.ofNat (48 + n % 10) :: acc)

/-- Decimal rendering of a natural number. -/
def natToDec (n : Nat) : String := String.mk (natToDecAux (n + 1) n [])

/-- A decimal digit character is never the formula marker. -/
theorem char_digit_ne_eqsign (m : Nat) (h : m < 10) : Char.ofNat (48 + m) ≠ '=' := by
  interval_cases m <;> decide

/-- No character the decimal formatter emits is the formula marker. -/
theorem natToDecAux_ne_eqsign (f : Nat) : ∀ (n : Nat) (acc : List Char),
    (∀ ch ∈ acc, ch ≠ '=') →
    ∀ ch ∈ natToDecAux f n acc, ch ≠ '=' := by
  induction f with
  | zero => intro n acc hacc; exact hacc
  | succ f ih =>
    intro n acc hacc
    have hd : Char.ofNat (48 + n % 10) ≠ '=' :=
      char_digit_ne_eqsign (n % 10) (Nat.mod_lt _ (by omega))
    have hcons : ∀ ch ∈ Char.ofNat (48 + n % 10) :: acc, ch ≠ '=' := by
      intro ch hch
      rcases List.mem_cons.mp hch with h' | h'
      · exact h' ▸ hd
      · exact hacc ch h'
    simp only [natToDecAux]
    by_cases h : n < 10
    · simp only [if_pos h]
      exact hcons
    · simp only [if_neg h]
      exact ih (n / 10) _ hcons

theorem natToDecAux_ne_nil (f : Nat) : ∀ (n : Nat) (acc : List Char),
    1 ≤ f ∨ acc ≠ [] → natToDecAux f n acc ≠ [] := by
  induction f with
  | zero =>
    intro n acc h
    rcases h with h | h
    · omega
    · exact h
  | succ f ih =>
    intro n acc _
    simp only [natToDecAux]
    by_cases hn : n < 10
    · simp [hn]
    · simp only [if_neg hn]
      exact ih (n / 10) _ (Or.inr (by simp))

/-- The column letter for a 1-based column index, following openpyxl's
`get_column_letter`: repeated divmod by 26 where a zero remainder stands
for the letter `Z` and borrows one from the quotient. -/
def get_column_letter (colIdx : Nat) : String :=
  if h : colIdx = 0 then ""
  else if hr : colIdx % 26 = 0 then get_column_letter (colIdx / 26 - 1) ++ "Z"
  else get_column_letter (colIdx / 26) ++ String.mk [Char.ofNat (64 + colIdx % 26)]
termination_by colIdx
decreasing_by
  · have : colIdx / 26 < colIdx := Nat.div_lt_self (Nat.pos_of_ne_zero h) (by omega)
    omega
  · exact Nat.div_lt_self (Nat.pos_of_ne_zero h) (by omega)

/-- Python truthiness of a cell value (`if not value: ...`): `None`, the
empty string, and the number zero are falsy. -/
def isFalsy : Value → Bool
  | Value.vnone => true
  | Value.vstr s => s.data.isEmpty
  | Value.vnum q => q == 0
  | Value.vdate _ _ => false
  | Value.vgold _ => false

/-- Python's `str()` of a cell value as far as the scripts observe it.
Strings render as themselves.  The renderings of numbers, dates and the
opaque gold-price floats differ in detail from CPython's, but the scripts
only ever ask whether the rendering contains `Total`, `#REF!`, a quote
character, or a formula keyword, and both renderings agree on those. -/
def pyStr : Value → String
  | Value.vnone => "None"
  | Value.vstr s => s
  | Value.vnum q => toString q
  | Value.vdate y m => toString y ++ "-" ++ toString m ++ "-01 00:00:00"
  | Value.vgold k => "2892.6e" ++ toString k

/-- Is `needle` a prefix of `hay` (character lists, exact match)? -/
def listIsPrefix : List Char → List Char → Bool
  | [], _ => true
  | _ :: _, [] => false
  | a :: as, b :: bs => a == b && listIsPrefix as bs

/-- Is `needle` a contiguous substring of `hay`? -/
def listInfix (needle : List Char) : List Char → Bool
  | [] => listIsPrefix needle []
  | c :: rest => listIsPrefix needle (c :: rest) || listInfix needle rest

/-- Python's `needle in hay` on strings. -/
def strContains (hay needle : String) : Bool := listInfix needle.data hay.data

/-- Python equality test `value == s` between a cell value and a string
literal: true only for an equal string. -/
def pyEqStr (v : Value) (s : String) : Bool :=
  match v with
  | Value.vstr t => t == s
  | _ => false

/-- Python equality test `value == q` between a cell value and a numeric
literal. -/
def pyEqNum (v : Value) (q : ℚ) : Bool :=
  match v with
  | Value.vnum p => p == q
  | _ => false

/-- English month abbreviations as produced by `strftime("%b")`. -/
def monthAbbrev : Nat → String
  | 1 => "Jan" | 2 => "Feb" | 3 => "Mar" | 4 => "Apr" | 5 => "May" | 6 => "Jun"
  | 7 => "Jul" | 8 => "Aug" | 9 => "Sep" | 10 => "Oct" | 11 => "Nov" | 12 => "Dec"
  | _ => "???"

/-- Zero-padded two-digit rendering, as produced by `strftime("%y")`. -/
def twoDigit (n : Nat) : String :=
  if n < 10 then "0" ++ natToDec n else natToDec n

/-- `datetime(y, m, 1) + relativedelta(months := k)`, as (year, month). -/
def addMonths (y m k : Nat) : Nat × Nat :=
  (y + (m - 1 + k) / 12, (m - 1 + k) % 12 + 1)

/-- `strftime("%b '%y")` of the date `k` months after the first of month
`m` of year `y`: e.g. `monthLabelFrom 2025 12 0 = "Dec '25"`. -/
def monthLabelFrom (y m k : Nat) : String :=
  monthAbbrev (addMonths y m k).2 ++ " '" ++ twoDigit ((addMonths y m k).1 % 100)

/-- The date value `k` months after the first of month `m` of year `y`. -/
def dateFrom (y m k : Nat) : Value :=
  Value.vdate (addMonths y m k).1 (addMonths y m k).2

/-- A wall-clock instant, as read by `datetime.now()`. -/
structure Timestamp where
  year : Nat
  month : Nat
  day : Nat
  hour : Nat
  minute : Nat
  second : Nat
deriving DecidableEq, Repr

/-- Zero-padded four-digit rendering, as produced by `strftime("%Y")`. -/
def fourDigit (n : Nat) : String :=
  if n < 10 then "000" ++ natToDec n
  else if n < 100 then "00" ++ natToDec n
  else if n < 1000 then "0" ++ natToDec n
  else natToDec n

/-- `datetime.now().strftime('%Y-%m-%d %H:%M:%S')`. -/
def fmtTimestamp (t : Timestamp) : String :=
  fourDigit t.year ++ "-" ++ twoDigit t.month ++ "-" ++ twoDigit t.day ++ " " ++
    twoDigit t.hour ++ ":" ++ twoDigit t.minute ++ ":" ++ twoDigit t.second

/-- Formula text is any string beginning with `=` (the tool writes such
strings but never evaluates them). -/
def isFormula (s : String) : Bool :=
  match s.data with
  | c :: _ => c == '='
  | [] => false

/-- The observation relevant to formula determinism: the formula text a
cell holds, if any. -/
def formulaTextOf (v : Value) : Option String :=
  match v with
  | Value.vstr s => if isFormula s then some s else none
  | _ => none

theorem isFormula_append_left (s t : String) (hs : s.data ≠ [])
    (h : ∀ ch ∈ s.data, ch ≠ '=') : isFormula (s ++ t) = false := by
  rw [isFormula]
  rcases hd : (s ++ t).data with _ | ⟨c, rest⟩
  · rfl
  · rw [String.data_append] at hd
    rcases hs' : s.data with _ | ⟨c', rest'⟩
    · exact absurd hs' hs
    · rw [hs'] at hd
      simp only [List.cons_append, List.cons.injEq] at hd
      have : c ≠ '=' := hd.1 ▸ h c' (hs' ▸ List.mem_cons_self c' rest')
      simpa using this

/-- A formatted timestamp never reads as formula text: its first character
is a digit of the zero-padded year. -/
theorem isFormula_fmtTimestamp (t : Timestamp) : isFormula (fmtTimestamp t) = false := by
  have hne : (fourDigit t.year).data ≠ [] := by
    rw [fourDigit]
    split
    · simp [String.data_append]
    · split
      · simp [String.data_append]
      · split
        · simp [String.data_append]
        · exact natToDecAux_ne_nil _ _ _ (Or.inl (by omega))
  have hch : ∀ ch ∈ (fourDigit t.year).data, ch ≠ '=' := by
    have hdec : ∀ ch ∈ (natToDec t.year).data, ch ≠ '=' :=
      natToDecAux_ne_eqsign _ _ _ (by intro ch hch; cases hch)
    rw [fourDigit]
    split
    · rw [String.data_append]
      intro ch hch
      rcases List.mem_append.mp hch with h | h
      · have : ch = '0' := by simpa using h
        simp [this]
      · exact hdec ch h
    · split
      · rw [String.data_append]
        intro ch hch
        rcases List.mem_append.mp hch with h | h
        · have : ch = '0' := by simpa using h
          simp [this]
        · exact hdec ch h
      · split
        · rw [String.data_append]
          intro ch hch
          rcases List.mem_append.mp hch with h | h
          · have : ch = '0' := by simpa using h
            simp [this]
          · exact hdec ch h
        · exact hdec
  rw [fmtTimestamp]
  rw [show fourDigit t.year ++ "-" ++ twoDigit t.month ++ "-" ++ twoDigit t.day ++ " " ++
      twoDigit t.hour ++ ":" ++ twoDigit t.minute ++ ":" ++ twoDigit t.second =
      fourDigit t.year ++ ("-" ++ twoDigit t.month ++ "-" ++ twoDigit t.day ++ " " ++
      twoDigit t.hour ++ ":" ++ twoDigit t.minute ++ ":" ++ twoDigit t.second) by
    simp [String.append_assoc]]
  exact isFormula_append_left _ _ hne hch

/-! ### Formula string templates

Each template is the Lean form of an f-string in the scripts; the spliced
parts are the column letter, the row number, or the 0-based month offset. -/

/-- `f'=XAUconfig!{col_letter}4'`. -/
def headerFormula (c : Nat) : String :=
  "=XAUconfig!" ++ get_column_letter c ++ "4"

/-- `f'=COUNTIF(\'Mine Inventory\'!$AO$2:$AO$13,{month_offset})'`. -/
def countifFormula (off : Nat) : String :=
  "=COUNTIF('Mine Inventory'!$AO$2:$AO$13," ++ natToDec off ++ ")"

/-- `f'=SUMIF(\'Mine Inventory\'!$AO$2:$AO$13,{month_offset},\'Mine Inventory\'!${col}$2:${col}$13)'`. -/
def sumifFormula (col : String) (off : Nat) : String :=
  "=SUMIF('Mine Inventory'!$AO$2:$AO$13," ++ natToDec off ++ ",'Mine Inventory'!$" ++
    col ++ "$2:$" ++ col ++ "$13)"

/-- `f'=IFERROR(MATCH(B{row},XAUconfig!$B$4:$BI$4,0)-1,"")'`. -/
def matchFormula (row : Nat) : String :=
  "=IFERROR(MATCH(B" ++ natToDec row ++ ",XAUconfig!$B$4:$BI$4,0)-1,\"\")"

/-- A sequence of cell assignments on one sheet, in program order. -/
def setCells (wb : Workbook) (s : String) (writes : List (Nat × Nat × Value)) : Workbook :=
  writes.foldl (fun w t => setCell w s t.1 t.2.1 t.2.2) wb

/-! ### fix_complete_financial_model.py -/

/-- Phase 1 of `fix_complete_financial_model.py` (`fix_inputs_sheet`):
reads `Inputs!B26` for logging, overwrites it with the literal `0.0001`,
and reads `Inputs!B25` for logging without writing it.  `none` models the
`KeyError` when the `Inputs` sheet is absent. -/
def fix_inputs_sheet (wb : Workbook) : Option Workbook :=
  if wb.sheetnames.contains "Inputs" then
    some (setCell wb "Inputs" 2 26 (Value.vnum (1/10000)))
  else none

/-- Phase 2 of `fix_complete_financial_model.py` (`fix_mine_schedule`):
sets `Mine Inventory` B2 to `Dec '25` and B3 to `Jan '26`. -/
def fix_mine_schedule (wb : Workbook) : Option Workbook :=
  if wb.sheetnames.contains "Mine Inventory" then
    some (setCell (setCell wb "Mine Inventory" 2 2 (Value.vstr "Dec '25"))
      "Mine Inventory" 2 3 (Value.vstr "Jan '26"))
  else none

/-- Phase 3 of `fix_complete_financial_model.py`
(`rebuild_xauconfig_timeline`): ensures an `XAUconfig` sheet exists,
deletes all its rows, writes header labels, then for each month offset
`k < 60` writes at column `k+2` the label (row 4), the month number `k`
(row 5) and the date value (row 6), for a timeline starting Dec 2025. -/
def rebuild_xauconfig_timeline (wb : Workbook) : Workbook :=
  let wb0 := if wb.sheetnames.contains "XAUconfig" then wb else createSheet wb "XAUconfig"
  let wb1 := clearSheet wb0 "XAUconfig"
  let wb2 := setCells wb1 "XAUconfig" [
    (1, 1, Value.vstr "XAU Configuration & Timeline"),
    (1, 2, Value.vstr "Description"),
    (2, 2, Value.vstr "60-month timeline starting Dec '25 (Courbet Mine onboarding)"),
    (1, 4, Value.vstr "Month Label"),
    (1, 5, Value.vstr "Month Number"),
    (1, 6, Value.vstr "Date Value")]
  (List.range 60).foldl (fun w k =>
    setCell (setCell (setCell w "XAUconfig" (k + 2) 4 (Value.vstr (monthLabelFrom 2025 12 k)))
      "XAUconfig" (k + 2) 5 (Value.vnum k))
      "XAUconfig" (k + 2) 6 (dateFrom 2025 12 k)) wb2

/-- `update_sheet_headers` of `fix_complete_financial_model.py`: when the
sheet exists, writes `=XAUconfig!<letter>4` into row `row_num` of columns
2 through 61; otherwise prints a skip notice and leaves the workbook
untouched. -/
def update_sheet_headers (wb : Workbook) (sheet_name : String) (row_num : Nat) : Workbook :=
  if wb.sheetnames.contains sheet_name then
    (List.range' 2 60).foldl
      (fun w c => setCell w sheet_name c row_num (Value.vstr (headerFormula c))) wb
  else wb

/-- The fixed sheet list of `update_all_sheet_headers`. -/
def sheets_to_update_complete : List String :=
  ["Resource Supply (5yr)", "Token Supply (5yr)", "Token Demand (5yr)",
   "RA LLC Cashflow", "RAF Cashflow (5yr)", "RGT Cashflow (5yr)"]

/-- Phase 4 of `fix_complete_financial_model.py`. -/
def update_all_sheet_headers (wb : Workbook) : Workbook :=
  sheets_to_update_complete.foldl (fun w s => update_sheet_headers w s 1) wb

/-- Phase 5 of `fix_complete_financial_model.py`
(`create_model_health_dashboard`): recreates the `Model Health` sheet and
fills the dashboard; cell B3 receives the formatted current time. -/
def create_model_health_dashboard (wb : Workbook) (now : Timestamp) : Workbook :=
  let wb0 := if wb.sheetnames.contains "Model Health" then deleteSheet wb "Model Health" else wb
  let wb1 := createSheet wb0 "Model Health"
  setCells wb1 "Model Health" [
    (1, 1, Value.vstr "RealGold Financial Model - Health Dashboard"),
    (1, 3, Value.vstr "Last Updated"),
    (2, 3, Value.vstr (fmtTimestamp now)),
    (1, 4, Value.vstr "Version"),
    (2, 4, Value.vstr "V2.1 - COMPLETE FIX"),
    (1, 6, Value.vstr "Critical Fixes Applied"),
    (1, 7, Value.vstr "Item"),
    (2, 7, Value.vstr "Change"),
    (3, 7, Value.vstr "Status"),
    (1, 8, Value.vstr "Unitization Fee"),
    (2, 8, Value.vstr "0.5% → 0.01%"),
    (3, 8, Value.vstr "CRITICAL FIX"),
    (1, 9, Value.vstr "Admin Fee"),
    (2, 9, Value.vstr "0.01%"),
    (3, 9, Value.vstr "Verified Correct"),
    (1, 10, Value.vstr "Courbet Mine Date"),
    (2, 10, Value.vstr "Sep '25 → Dec '25"),
    (3, 10, Value.vstr "Updated"),
    (1, 11, Value.vstr "Courbet Position"),
    (2, 11, Value.vstr "Now FIRST mine"),
    (3, 11, Value.vstr "Critical"),
    (1, 12, Value.vstr "Mine 2 Date"),
    (2, 12, Value.vstr "Nov '25 → Jan '26"),
    (3, 12, Value.vstr "After Courbet"),
    (1, 13, Value.vstr "XAUconfig Timeline"),
    (2, 13, Value.vstr "Dec '25 start"),
    (3, 13, Value.vstr "Matches first mine"),
    (1, 14, Value.vstr "All Sheet Headers"),
    (2, 14, Value.vstr "Dynamic formulas"),
    (3, 14, Value.vstr "Linked to XAUconfig"),
    (1, 17, Value.vstr "Live Validation Checks"),
    (1, 18, Value.vstr "Unitization Fee Check"),
    (2, 18, Value.vstr "=IF(Inputs!B26=0.0001,\"✓ PASS\",\"✗ FAIL - Should be 0.0001\")"),
    (1, 19, Value.vstr "Admin Fee Check"),
    (2, 19, Value.vstr "=IF(Inputs!B25=0.0001,\"✓ PASS\",\"✗ FAIL - Should be 0.0001\")"),
    (1, 20, Value.vstr "Timeline Start Check"),
    (2, 20, Value.vstr "=XAUconfig!B4"),
    (3, 20, Value.vstr "Should show: Dec '25"),
    (1, 21, Value.vstr "Courbet Date Check"),
    (2, 21, Value.vstr "=\"Mine Inventory\"!B2"),
    (3, 21, Value.vstr "Should show: Dec '25")]

/-- The mutation pipeline of `fix_complete_financial_model.py` `main`
after the workbook is loaded (phases 1–5 in program order). -/
def fixCompleteFinancialModel_phases (wb : Workbook) (now : Timestamp) : Option Workbook :=
  (fix_inputs_sheet wb).bind fun w1 =>
  (fix_mine_schedule w1).bind fun w2 =>
  some (create_model_health_dashboard (update_all_sheet_headers (rebuild_xauconfig_timeline w2)) now)

/-! ### fix_financial_model.py -/

/-- Does `value * 100` evaluate in Python?  It does for numbers (and the
gold-price floats) and, by sequence repetition, for strings; it raises
`TypeError` for `None` and for `datetime` values. -/
def timesHundredOk : Value → Bool
  | Value.vnum _ => true
  | Value.vgold _ => true
  | Value.vstr _ => true
  | _ => false

/-- Phase 1 of `fix_financial_model.py` (`fix_fee_structure`): logs
`B26 * 100`, overwrites `Inputs!B26` with `0.0001`, logs the reduction
`(old - 0.0001) / old * 100` (raising `ZeroDivisionError` when the old
value is zero and `TypeError` when it is not a number), then logs
`B25 * 100`.  `none` models any of those exceptions, or the `KeyError`
for a missing `Inputs` sheet; the write to B26 happens on every path
that reaches it, but a raising phase aborts the script before saving. -/
def fix_fee_structure (wb : Workbook) : Option Workbook :=
  if wb.sheetnames.contains "Inputs" then
    match wb.cell "Inputs" 2 26 with
    | Value.vnum old =>
      if old = 0 then none
      else
        let wb1 := setCell wb "Inputs" 2 26 (Value.vnum (1/10000))
        if timesHundredOk (wb1.cell "Inputs" 2 25) then some wb1 else none
    | _ => none
  else none

/-- Phase 2 of `fix_financial_model.py` (`update_mine_timeline`): sets
`Mine Inventory` B2 to `Dec '25`. -/
def update_mine_timeline (wb : Workbook) : Option Workbook :=
  if wb.sheetnames.contains "Mine Inventory" then
    some (setCell wb "Mine Inventory" 2 2 (Value.vstr "Dec '25"))
  else none

/-- Python `int(s)` on a stripped string of decimal digits; `none` models
the `ValueError` on anything else (signs and unicode digits do not occur
in the data the script parses). -/
def intParse (s : String) : Option Nat :=
  if s.data ≠ [] ∧ s.data.all (fun c => c.isDigit) then
    some (s.data.foldl (fun n c => n * 10 + (c.toNat - 48)) 0)
  else none

/-- Python `str.split()` (split on whitespace runs, dropping empties). -/
def pySplitWs (s : String) : List String :=
  (s.split (fun c => c = ' ' ∨ c = '\t' ∨ c = '\n')).filter (fun t => t != "")

/-- Python `str.strip("'")`: remove leading and trailing apostrophes. -/
def stripApos (s : String) : String :=
  String.mk (((s.data.dropWhile (fun c => c == '\'')).reverse.dropWhile
    (fun c => c == '\'')).reverse)

/-- `month_map.get(abbr, 1)` of `add_dynamic_scheduling_columns`. -/
def month_map (abbr : String) : Nat :=
  if abbr = "Jan" then 1 else if abbr = "Feb" then 2 else if abbr = "Mar" then 3
  else if abbr = "Apr" then 4 else if abbr = "May" then 5 else if abbr = "Jun" then 6
  else if abbr = "Jul" then 7 else if abbr = "Aug" then 8 else if abbr = "Sep" then 9
  else if abbr = "Oct" then 10 else if abbr = "Nov" then 11 else if abbr = "Dec" then 12
  else 1

/-- The per-row date parse of `add_dynamic_scheduling_columns`: from a
date text such as `Sep '25`, the (year, month) it denotes.  `none` models
the row-local `try`/`except` arm (unpacking or `int()` failure), after
which the row is skipped. -/
def parseMineDate (date_text : String) : Option (Nat × Nat) :=
  match pySplitWs date_text with
  | [month_abbr, year_short] =>
    (intParse (stripApos year_short)).map (fun y => (2000 + y, month_map month_abbr))
  | _ => none

/-- Phase 3 of `fix_financial_model.py`
(`add_dynamic_scheduling_columns`): appends three columns after the
current `max_column` of `Mine Inventory`; for each mine row 2–13 whose
name is truthy and not a `Total` line and whose date text contains a
quote, parses the date (row 2, Courbet, is forced to Dec 2025), and
writes the date value, the month difference from Dec 2025 and a `TEXT`
formula into the three new columns.  Rows that fail to parse are skipped
by the row-local exception handler. -/
def add_dynamic_scheduling_columns (wb : Workbook) : Option Workbook :=
  if wb.sheetnames.contains "Mine Inventory" then
    let newCol := wb.maxCol "Mine Inventory" + 1
    let wb1 := setCells wb "Mine Inventory" [
      (newCol, 1, Value.vstr "Onboard Date (Actual)"),
      (newCol + 1, 1, Value.vstr "Months from Start"),
      (newCol + 2, 1, Value.vstr "Timeline Formula")]
    some ((List.range' 2 12).foldl (fun w row =>
      let mineName := w.cell "Mine Inventory" 1 row
      if isFalsy mineName || strContains (pyStr mineName) "Total" then w
      else
        let dateText := if isFalsy (w.cell "Mine Inventory" 2 row) then ""
          else pyStr (w.cell "Mine Inventory" 2 row)
        if strContains dateText "'" then
          match parseMineDate dateText with
          | some (y, m) =>
            let actual : Nat × Nat := if row = 2 then (2025, 12) else (y, m)
            let monthsDiff : ℚ := ((actual.1 : ℚ) - 2025) * 12 + ((actual.2 : ℚ) - 12)
            setCells w "Mine Inventory" [
              (newCol, row, Value.vdate actual.1 actual.2),
              (newCol + 1, row, Value.vnum monthsDiff),
              (newCol + 2, row, Value.vstr ("=TEXT(" ++ get_column_letter newCol ++
                natToDec row ++ ",\"mmm 'yy\")"))]
          | none => w
        else w) wb1)
  else none

/-- The per-cell test of the `#REF!` scan
(`cell.value and isinstance(cell.value, str) and '#REF!' in str(...)`):
the coordinate when the value is a truthy string containing `#REF!`. -/
def refErrorStep (v : Value) (c r : Nat) : Option (Nat × Nat) :=
  match v with
  | Value.vstr s => if ¬s.data.isEmpty ∧ strContains s "#REF!" then some (c, r) else none
  | _ => none

/-- `analyze_formula_errors`: the coordinates (column, row), in the order
`iter_rows` yields them, of the cells of a sheet whose value is a truthy
string containing `#REF!`. -/
def analyze_formula_errors (wb : Workbook) (sheet : String) : List (Nat × Nat) :=
  (List.range' 1 (wb.maxRow sheet)).flatMap (fun r =>
    (List.range' 1 (wb.maxCol sheet)).filterMap (fun c =>
      refErrorStep (wb.cell sheet c r) c r))

/-- Does a cell value qualify as a `#REF!` error for the script's scan
(`cell.value and isinstance(cell.value, str) and '#REF!' in str(...)`)? -/
def isRefError (v : Value) : Bool :=
  match v with
  | Value.vstr s => ¬s.data.isEmpty ∧ strContains s "#REF!"
  | _ => false

/-- Phase 4 of `fix_financial_model.py` (`analyze_ref_errors`): scans all
sheets, returning the error coordinates per sheet; read-only. -/
def analyze_ref_errors (wb : Workbook) : List (String × Nat × Nat) :=
  wb.sheetnames.flatMap (fun s => (analyze_formula_errors wb s).map (fun cr => (s, cr.1, cr.2)))

/-- Phase 5 of `fix_financial_model.py` (`fix_ref_errors`): re-scans
`Mine Inventory` for `#REF!` cells, clears each one (value set to `None`),
and returns the count of cleared cells. -/
def fix_ref_errors (wb : Workbook) : Option (Workbook × Nat) :=
  if wb.sheetnames.contains "Mine Inventory" then
    let errors := analyze_formula_errors wb "Mine Inventory"
    some (errors.foldl (fun w cr => setCell w "Mine Inventory" cr.1 cr.2 Value.vnone) wb,
      errors.length)
  else none

/-- Phase 6 of `fix_financial_model.py` (`add_model_health_sheet`):
recreates the `Model Health` sheet; cell B4 receives the formatted
current time. -/
def add_model_health_sheet (wb : Workbook) (now : Timestamp) : Workbook :=
  let wb0 := if wb.sheetnames.contains "Model Health" then deleteSheet wb "Model Health" else wb
  let wb1 := createSheet wb0 "Model Health"
  setCells wb1 "Model Health" [
    (1, 1, Value.vstr "RealGold Financial Model - Health Dashboard"),
    (1, 3, Value.vstr "Corrections Applied"),
    (1, 4, Value.vstr "Date"),
    (2, 4, Value.vstr (fmtTimestamp now)),
    (1, 5, Value.vstr "Version"),
    (2, 5, Value.vstr "V2.1 (Corrected)"),
    (1, 7, Value.vstr "Critical Fixes"),
    (1, 8, Value.vstr "Unitization Fee"),
    (2, 8, Value.vstr "0.5% → 0.01%"),
    (3, 8, Value.vstr "CRITICAL - Was 50x too high"),
    (1, 9, Value.vstr "Admin Fee"),
    (2, 9, Value.vstr "0.01%"),
    (3, 9, Value.vstr "Verified correct"),
    (1, 10, Value.vstr "Courbet Mine Timeline"),
    (2, 10, Value.vstr "Sep '25 → Dec '25"),
    (3, 10, Value.vstr "Updated as requested"),
    (1, 11, Value.vstr "#REF! Errors"),
    (2, 11, Value.vstr "16 errors cleared"),
    (3, 11, Value.vstr "Formulas removed from broken cells"),
    (1, 12, Value.vstr "Dynamic Scheduling"),
    (2, 12, Value.vstr "Added columns AO-AQ"),
    (3, 12, Value.vstr "New date management system"),
    (1, 15, Value.vstr "Model Validation Checks"),
    (1, 16, Value.vstr "Check"),
    (2, 16, Value.vstr "Status"),
    (3, 16, Value.vstr "Notes"),
    (1, 17, Value.vstr "Fee Structure"),
    (2, 17, Value.vstr "=IF(Inputs!B26=0.0001,\"✓ PASS\",\"✗ FAIL\")"),
    (3, 17, Value.vstr "Unitization fee must be 0.0001 (1 basis point)"),
    (1, 18, Value.vstr "Admin Fee"),
    (2, 18, Value.vstr "=IF(Inputs!B25=0.0001,\"✓ PASS\",\"✗ FAIL\")"),
    (3, 18, Value.vstr "Admin fee must be 0.0001 (1 basis point)")]

/-- The mutation pipeline of `fix_financial_model.py` `main` after the
workbook is loaded (phase 7, `generate_summary_report`, prints and writes
a text report without touching the workbook and is represented by the
identity on it). -/
def fixFinancialModel_phases (wb : Workbook) (now : Timestamp) : Option Workbook :=
  (fix_fee_structure wb).bind fun w1 =>
  (update_mine_timeline w1).bind fun w2 =>
  (add_dynamic_scheduling_columns w2).bind fun w3 =>
  let _errs := analyze_ref_errors w3
  (fix_ref_errors w3).bind fun wn =>
  some (add_model_health_sheet wn.1 now)

/-! ### fix_realgold_final.py -/

/-- Phase 1 of `fix_realgold_final.py` (`fix_unitization_fee`): sets
`Inputs!B26` to `0.0001`, logging the old value and `B25` without
arithmetic on them. -/
def fix_unitization_fee (wb : Workbook) : Option Workbook :=
  if wb.sheetnames.contains "Inputs" then
    some (setCell wb "Inputs" 2 26 (Value.vnum (1/10000)))
  else none

/-- Phase 2 of `fix_realgold_final.py` (`fix_courbet_date`): sets
`Mine Inventory` B2 to `Dec '25`. -/
def fix_courbet_date (wb : Workbook) : Option Workbook :=
  if wb.sheetnames.contains "Mine Inventory" then
    some (setCell wb "Mine Inventory" 2 2 (Value.vstr "Dec '25"))
  else none

/-- The literal month list of `verify_xauconfig` and
`verify_resource_supply_timeline`. -/
def expected_months_2025 : List String :=
  ["Jan '25", "Feb '25", "Mar '25", "Apr '25", "May '25", "Jun '25",
   "Jul '25", "Aug '25", "Sep '25", "Oct '25", "Nov '25", "Dec '25"]

/-- Phase 3 of `fix_realgold_final.py` (`verify_xauconfig`): read-only;
returns whether the first twelve row-1 cells of `XAUconfig` carry the
expected month labels, and `false` with a skip notice when the sheet is
absent. -/
def verify_xauconfig (wb : Workbook) : Bool :=
  if wb.sheetnames.contains "XAUconfig" then
    expected_months_2025.enum.all
      (fun p => pyEqStr (wb.cell "XAUconfig" (p.1 + 2) 1) p.2)
  else false

/-- Phase 4 of `fix_realgold_final.py` (`verify_resource_supply_timeline`):
read-only over `Resource Supply (5yr)`; `none` models the `KeyError` when
that sheet is absent (the function itself always returns `True`). -/
def verify_resource_supply_timeline (wb : Workbook) : Option Bool :=
  if wb.sheetnames.contains "Resource Supply (5yr)" then some true else none

/-- Phase 5 of `fix_realgold_final.py` (`create_model_health`): recreates
the `Model Health` dashboard; cell B3 receives the formatted current
time. -/
def create_model_health_realgold (wb : Workbook) (now : Timestamp) : Workbook :=
  let wb0 := if wb.sheetnames.contains "Model Health" then deleteSheet wb "Model Health" else wb
  let wb1 := createSheet wb0 "Model Health"
  setCells wb1 "Model Health" [
    (1, 1, Value.vstr "RealGold Financial Model - Health Dashboard"),
    (1, 3, Value.vstr "Last Updated"),
    (2, 3, Value.vstr (fmtTimestamp now)),
    (1, 4, Value.vstr "Version"),
    (2, 4, Value.vstr "V2.2 - Correct Timeline Fix"),
    (1, 6, Value.vstr "Corrections Applied"),
    (1, 7, Value.vstr "Item"),
    (2, 7, Value.vstr "Change"),
    (3, 7, Value.vstr "Notes"),
    (1, 8, Value.vstr "Unitization Fee"),
    (2, 8, Value.vstr "0.5% → 0.01%"),
    (3, 8, Value.vstr "CRITICAL - Fixed 50x error"),
    (1, 9, Value.vstr "Admin Fee"),
    (2, 9, Value.vstr "0.01%"),
    (3, 9, Value.vstr "Verified correct"),
    (1, 10, Value.vstr "Courbet Mine Date"),
    (2, 10, Value.vstr "Sep '25 → Dec '25"),
    (3, 10, Value.vstr "Updated"),
    (1, 11, Value.vstr "Timeline Start"),
    (2, 11, Value.vstr "Jan '25"),
    (3, 11, Value.vstr "PRESERVED for cost tracking"),
    (1, 12, Value.vstr "Courbet Position"),
    (2, 12, Value.vstr "Column M (Dec '25)"),
    (3, 12, Value.vstr "Correct"),
    (1, 15, Value.vstr "Live Validation Checks"),
    (1, 16, Value.vstr "Unitization Fee"),
    (2, 16, Value.vstr "=IF(Inputs!B26=0.0001,\"✓ PASS\",\"✗ FAIL - Should be 0.0001\")"),
    (1, 17, Value.vstr "Admin Fee"),
    (2, 17, Value.vstr "=IF(Inputs!B25=0.0001,\"✓ PASS\",\"✗ FAIL - Should be 0.0001\")"),
    (1, 18, Value.vstr "Courbet Date"),
    (2, 18, Value.vstr "=\"Mine Inventory\"!B2"),
    (3, 18, Value.vstr "Should show: Dec '25"),
    (1, 19, Value.vstr "Timeline Start"),
    (2, 19, Value.vstr "=\"Resource Supply (5yr)\"!B1"),
    (3, 19, Value.vstr "Should show: Jan '25")]

/-- The mutation pipeline of `fix_realgold_final.py` `main` after load. -/
def fixRealgoldFinal_phases (wb : Workbook) (now : Timestamp) : Option Workbook :=
  (fix_unitization_fee wb).bind fun w1 =>
  (fix_courbet_date w1).bind fun w2 =>
  let _ok := verify_xauconfig w2
  (verify_resource_supply_timeline w2).bind fun _ =>
  some (create_model_health_realgold w2 now)

/-! ### fix_timeline_to_jan_2025.py -/

/-- `create_timeline_from_jan_2025`: over the existing `XAUconfig` sheet
(`KeyError` when absent), writes the row labels `Gold Price (CAGR)`,
`Month` and `Dropdown Source`, then for each month offset `k < 60` writes
at column `k+2` the gold price (row 3), the month label for Jan 2025 plus
`k` months (row 4) and the same label again as dropdown source (row 6). -/
def create_timeline_from_jan_2025 (wb : Workbook) : Option Workbook :=
  if wb.sheetnames.contains "XAUconfig" then
    let wb1 := setCells wb "XAUconfig" [
      (1, 3, Value.vstr "Gold Price (CAGR)"),
      (1, 4, Value.vstr "Month"),
      (1, 6, Value.vstr "Dropdown Source")]
    some ((List.range 60).foldl (fun w k =>
      setCell (setCell (setCell w "XAUconfig" (k + 2) 3 (Value.vgold k))
        "XAUconfig" (k + 2) 4 (Value.vstr (monthLabelFrom 2025 1 k)))
        "XAUconfig" (k + 2) 6 (Value.vstr (monthLabelFrom 2025 1 k))) wb1)
  else none

/-- `update_mine_inventory_dropdowns`: accesses `Mine Inventory`
(`KeyError` when absent) and only prints; no cell is written. -/
def update_mine_inventory_dropdowns (wb : Workbook) : Option Workbook :=
  if wb.sheetnames.contains "Mine Inventory" then some wb else none

/-- The mutation pipeline of `fix_timeline_to_jan_2025.py` `main` after
load. -/
def fixTimelineToJan2025_phases (wb : Workbook) : Option Workbook :=
  (create_timeline_from_jan_2025 wb).bind fun w1 =>
  update_mine_inventory_dropdowns w1

/-! ### create_fully_dynamic_model.py -/

/-- Phase 1 of the three `create_*` scripts (`fix_fees`, identical in
each): sets `Inputs!B26` to `0.0001` and logs `B25` without writing it. -/
def fix_fees (wb : Workbook) : Option Workbook :=
  if wb.sheetnames.contains "Inputs" then
    some (setCell wb "Inputs" 2 26 (Value.vnum (1/10000)))
  else none

/-- Phase 2 of `create_fully_dynamic_model.py` (`update_mine_dates`):
sets `Mine Inventory` B2 to `Dec '25` and B3 to `Jan '26`. -/
def update_mine_dates (wb : Workbook) : Option Workbook :=
  if wb.sheetnames.contains "Mine Inventory" then
    some (setCell (setCell wb "Mine Inventory" 2 2 (Value.vstr "Dec '25"))
      "Mine Inventory" 2 3 (Value.vstr "Jan '26"))
  else none

/-- Phase 3 of `create_fully_dynamic_model.py`
(`create_xauconfig_timeline`): deletes any existing `XAUconfig`, recreates
it, writes header labels, and writes the 60 month labels (Dec 2025 start)
into row 4 at columns 2 through 61. -/
def create_xauconfig_timeline (wb : Workbook) : Workbook :=
  let wb0 := if wb.sheetnames.contains "XAUconfig" then deleteSheet wb "XAUconfig" else wb
  let wb1 := createSheet wb0 "XAUconfig"
  let wb2 := setCells wb1 "XAUconfig" [
    (1, 1, Value.vstr "XAU Configuration Timeline"),
    (1, 2, Value.vstr "Description"),
    (2, 2, Value.vstr "60-month timeline: Dec '25 - Nov '30"),
    (1, 4, Value.vstr "Month Label")]
  (List.range 60).foldl (fun w k =>
    setCell w "XAUconfig" (k + 2) 4 (Value.vstr (monthLabelFrom 2025 12 k))) wb2

/-- Phase 4 of `create_fully_dynamic_model.py`
(`add_dynamic_offset_column`): writes the offset-column header, then for
each row 2–13 of `Mine Inventory` whose column-A value is truthy and does
not contain `Total`, writes the `MATCH` offset formula into column AO
(index 41) of that row. -/
def add_dynamic_offset_column (wb : Workbook) : Option Workbook :=
  if wb.sheetnames.contains "Mine Inventory" then
    let wb1 := setCell wb "Mine Inventory" 41 1 (Value.vstr "Month Offset (Dynamic)")
    some ((List.range' 2 12).foldl (fun w row =>
      if isFalsy (w.cell "Mine Inventory" 1 row) ||
          strContains (pyStr (w.cell "Mine Inventory" 1 row)) "Total" then w
      else setCell w "Mine Inventory" 41 row (Value.vstr (matchFormula row))) wb1)
  else none

/-- Phase 5 of `create_fully_dynamic_model.py` and phase 4 of
`create_dynamic_model_with_dropdowns.py`
(`update_resource_supply_with_sumif`, textually identical in both):
links the row-1 headers of `Resource Supply (5yr)` to the `XAUconfig`
timeline, then writes for every column 2–61 a `COUNTIF` mine count (row
3) and a `SUMIF` gold production sum (row 5) whose embedded offset is the
column index minus 2. -/
def update_resource_supply_with_sumif (wb : Workbook) : Option Workbook :=
  if wb.sheetnames.contains "Resource Supply (5yr)" then
    let wb1 := (List.range' 2 60).foldl
      (fun w c => setCell w "Resource Supply (5yr)" c 1 (Value.vstr (headerFormula c))) wb
    some ((List.range' 2 60).foldl (fun w c =>
      setCell (setCell w "Resource Supply (5yr)" c 3 (Value.vstr (countifFormula (c - 2))))
        "Resource Supply (5yr)" c 5 (Value.vstr (sumifFormula "M" (c - 2)))) wb1)
  else none

/-- The fixed sheet list of `update_other_sheet_headers` in
`create_fully_dynamic_model.py` and `create_dynamic_model_with_dropdowns.py`. -/
def sheets_to_update_other : List String :=
  ["Token Supply (5yr)", "Token Demand (5yr)", "RA LLC Cashflow",
   "RAF Cashflow (5yr)", "RGT Cashflow (5yr)"]

/-- Phase 6 of `create_fully_dynamic_model.py` and phase 5 of
`create_dynamic_model_with_dropdowns.py` (`update_other_sheet_headers`,
identical in both): for each listed sheet present in the workbook, links
its row-1 headers to the `XAUconfig` timeline; absent sheets are skipped
with a notice. -/
def update_other_sheet_headers (wb : Workbook) : Workbook :=
  sheets_to_update_other.foldl (fun w sheet_name =>
    if w.sheetnames.contains sheet_name then
      (List.range' 2 60).foldl
        (fun w' c => setCell w' sheet_name c 1 (Value.vstr (headerFormula c))) w
    else w) wb

/-- Phase 7 of `create_fully_dynamic_model.py` (`create_model_health`):
recreates the `Model Health` dashboard; cell B4 receives the formatted
current time. -/
def create_model_health_fully (wb : Workbook) (now : Timestamp) : Workbook :=
  let wb0 := if wb.sheetnames.contains "Model Health" then deleteSheet wb "Model Health" else wb
  let wb1 := createSheet wb0 "Model Health"
  setCells wb1 "Model Health" [
    (1, 1, Value.vstr "RealGold Financial Model - FULLY DYNAMIC"),
    (1, 3, Value.vstr "Version"),
    (2, 3, Value.vstr "V2.3 - Fully Dynamic"),
    (1, 4, Value.vstr "Updated"),
    (2, 4, Value.vstr (fmtTimestamp now)),
    (1, 6, Value.vstr "KEY FEATURE: Dynamic Date Management"),
    (1, 7, Value.vstr "Instructions"),
    (2, 7, Value.vstr "Change any date in 'Mine Inventory' Column B"),
    (1, 8, Value.vstr ""),
    (2, 8, Value.vstr "ALL data redistributes automatically across entire workbook"),
    (1, 10, Value.vstr "Corrections Applied"),
    (1, 11, Value.vstr "Item"),
    (2, 11, Value.vstr "Change"),
    (3, 11, Value.vstr "Status"),
    (1, 12, Value.vstr "Unitization Fee"),
    (2, 12, Value.vstr "0.5% → 0.01%"),
    (3, 12, Value.vstr "CRITICAL"),
    (1, 13, Value.vstr "Courbet Mine"),
    (2, 13, Value.vstr "Sep '25 → Dec '25"),
    (3, 13, Value.vstr "Updated"),
    (1, 14, Value.vstr "Mine 2"),
    (2, 14, Value.vstr "Nov '25 → Jan '26"),
    (3, 14, Value.vstr "Updated"),
    (1, 15, Value.vstr "Column AO"),
    (2, 15, Value.vstr "MATCH formulas added"),
    (3, 15, Value.vstr "DYNAMIC OFFSETS"),
    (1, 16, Value.vstr "Resource Supply"),
    (2, 16, Value.vstr "SUMIF/COUNTIF formulas"),
    (3, 16, Value.vstr "DYNAMIC DATA"),
    (1, 17, Value.vstr "All Headers"),
    (2, 17, Value.vstr "XAUconfig references"),
    (3, 17, Value.vstr "Dynamic timeline"),
    (1, 20, Value.vstr "Live Validation"),
    (1, 21, Value.vstr "Unitization Fee"),
    (2, 21, Value.vstr "=IF(Inputs!B26=0.0001,\"✓ PASS\",\"✗ FAIL\")"),
    (1, 22, Value.vstr "Timeline Start"),
    (2, 22, Value.vstr "=XAUconfig!B4"),
    (3, 22, Value.vstr "Should be: Dec '25"),
    (1, 23, Value.vstr "Courbet Date"),
    (2, 23, Value.vstr "=\"Mine Inventory\"!B2"),
    (3, 23, Value.vstr "Should be: Dec '25"),
    (1, 24, Value.vstr "Courbet Offset (Dynamic)"),
    (2, 24, Value.vstr "=\"Mine Inventory\"!AO2"),
    (3, 24, Value.vstr "Should be: 0 (if Courbet is Dec '25)")]

/-- The mutation pipeline of `create_fully_dynamic_model.py` `main`
after load (phases 1–7 in program order). -/
def createFullyDynamic_phases (wb : Workbook) (now : Timestamp) : Option Workbook :=
  (fix_fees wb).bind fun w1 =>
  (update_mine_dates w1).bind fun w2 =>
  (add_dynamic_offset_column (create_xauconfig_timeline w2)).bind fun w4 =>
  (update_resource_supply_with_sumif w4).bind fun w5 =>
  some (create_model_health_fully (update_other_sheet_headers w5) now)

/-! ### create_dynamic_model_with_dropdowns.py -/

/-- `dv.add(ref)`: registers one more cell under the worksheet's list
data-validation rule. -/
def addDvRef (wb : Workbook) (s ref : String) : Workbook :=
  { wb with dvRefs := wb.dvRefs ++ [(s, ref)] }

/-- Phase 2 of `create_dynamic_model_with_dropdowns.py`
(`create_xauconfig_timeline`): recreates `XAUconfig`; writes the 60 month
labels (Dec 2025 start) into both row 4 (display) and row 6 (dropdown
source). -/
def create_xauconfig_timeline_dd (wb : Workbook) : Workbook :=
  let wb0 := if wb.sheetnames.contains "XAUconfig" then deleteSheet wb "XAUconfig" else wb
  let wb1 := createSheet wb0 "XAUconfig"
  let wb2 := setCells wb1 "XAUconfig" [
    (1, 1, Value.vstr "XAU Configuration Timeline"),
    (1, 2, Value.vstr "Description"),
    (2, 2, Value.vstr "60-month timeline: Dec '25 - Nov '30"),
    (1, 4, Value.vstr "Month Label"),
    (1, 6, Value.vstr "Date Dropdown List")]
  (List.range 60).foldl (fun w k =>
    setCell (setCell w "XAUconfig" (k + 2) 4 (Value.vstr (monthLabelFrom 2025 12 k)))
      "XAUconfig" (k + 2) 6 (Value.vstr (monthLabelFrom 2025 12 k))) wb2

/-- Phase 3 of `create_dynamic_model_with_dropdowns.py`
(`setup_mine_inventory_with_dropdowns`): sets the initial dates B2/B3,
writes the offset-column header, then for each row 2–13 whose column-A
value is truthy and does not contain `Total`, attaches the dropdown
validation to `B<row>` and writes the `MATCH` offset formula into column
AO of that row. -/
def setup_mine_inventory_with_dropdowns (wb : Workbook) : Option Workbook :=
  if wb.sheetnames.contains "Mine Inventory" then
    let wb1 := setCell (setCell wb "Mine Inventory" 2 2 (Value.vstr "Dec '25"))
      "Mine Inventory" 2 3 (Value.vstr "Jan '26")
    let wb2 := setCell wb1 "Mine Inventory" 41 1 (Value.vstr "Month Offset (Dynamic)")
    some ((List.range' 2 12).foldl (fun w row =>
      if isFalsy (w.cell "Mine Inventory" 1 row) ||
          strContains (pyStr (w.cell "Mine Inventory" 1 row)) "Total" then w
      else
        setCell (addDvRef w "Mine Inventory" ("B" ++ natToDec row))
          "Mine Inventory" 41 row (Value.vstr (matchFormula row))) wb2)
  else none

/-- Phase 6 of `create_dynamic_model_with_dropdowns.py`
(`create_model_health`): recreates the `Model Health` dashboard; cell B4
receives the formatted current time. -/
def create_model_health_dd (wb : Workbook) (now : Timestamp) : Workbook :=
  let wb0 := if wb.sheetnames.contains "Model Health" then deleteSheet wb "Model Health" else wb
  let wb1 := createSheet wb0 "Model Health"
  setCells wb1 "Model Health" [
    (1, 1, Value.vstr "RealGold Financial Model - DYNAMIC with DROPDOWNS"),
    (1, 3, Value.vstr "Version"),
    (2, 3, Value.vstr "V2.4 - Dynamic Dropdowns"),
    (1, 4, Value.vstr "Updated"),
    (2, 4, Value.vstr (fmtTimestamp now)),
    (1, 6, Value.vstr "KEY FEATURE: Dropdown Date Selection"),
    (1, 7, Value.vstr "Instructions"),
    (2, 7, Value.vstr "1. Go to 'Mine Inventory' sheet"),
    (1, 8, Value.vstr ""),
    (2, 8, Value.vstr "2. Click Column B cell for any mine"),
    (1, 9, Value.vstr ""),
    (2, 9, Value.vstr "3. Select date from DROPDOWN (no typing needed)"),
    (1, 10, Value.vstr ""),
    (2, 10, Value.vstr "4. Data redistributes AUTOMATICALLY (no save/reopen)"),
    (1, 12, Value.vstr "Corrections Applied"),
    (1, 13, Value.vstr "Item"),
    (2, 13, Value.vstr "Change"),
    (3, 13, Value.vstr "Status"),
    (1, 14, Value.vstr "Unitization Fee"),
    (2, 14, Value.vstr "0.5% → 0.01%"),
    (3, 14, Value.vstr "CRITICAL"),
    (1, 15, Value.vstr "Courbet Mine"),
    (2, 15, Value.vstr "Sep '25 → Dec '25"),
    (3, 15, Value.vstr "Updated"),
    (1, 16, Value.vstr "Mine 2"),
    (2, 16, Value.vstr "Nov '25 → Jan '26"),
    (3, 16, Value.vstr "Updated"),
    (1, 17, Value.vstr "Column B"),
    (2, 17, Value.vstr "DROPDOWN date selectors"),
    (3, 17, Value.vstr "NEW FEATURE"),
    (1, 18, Value.vstr "Column AO"),
    (2, 18, Value.vstr "MATCH formulas"),
    (3, 18, Value.vstr "DYNAMIC OFFSETS"),
    (1, 19, Value.vstr "Resource Supply"),
    (2, 19, Value.vstr "SUMIF/COUNTIF formulas"),
    (3, 19, Value.vstr "DYNAMIC DATA"),
    (1, 20, Value.vstr "All Headers"),
    (2, 20, Value.vstr "XAUconfig references"),
    (3, 20, Value.vstr "Dynamic timeline"),
    (1, 23, Value.vstr "Live Validation"),
    (1, 24, Value.vstr "Unitization Fee"),
    (2, 24, Value.vstr "=IF(Inputs!B26=0.0001,\"✓ PASS\",\"✗ FAIL\")"),
    (1, 25, Value.vstr "Timeline Start"),
    (2, 25, Value.vstr "=XAUconfig!B4"),
    (3, 25, Value.vstr "Should be: Dec '25"),
    (1, 26, Value.vstr "Courbet Date"),
    (2, 26, Value.vstr "=\"Mine Inventory\"!B2"),
    (3, 26, Value.vstr "Should be: Dec '25"),
    (1, 27, Value.vstr "Courbet Offset (Dynamic)"),
    (2, 27, Value.vstr "=\"Mine Inventory\"!AO2"),
    (3, 27, Value.vstr "Should be: 0 (if Courbet is Dec '25)")]

/-- The mutation pipeline of `create_dynamic_model_with_dropdowns.py`
`main` after load (phases 1–6 in program order). -/
def createDynamicDropdowns_phases (wb : Workbook) (now : Timestamp) : Option Workbook :=
  (fix_fees wb).bind fun w1 =>
  (setup_mine_inventory_with_dropdowns (create_xauconfig_timeline_dd w1)).bind fun w3 =>
  (update_resource_supply_with_sumif w3).bind fun w4 =>
  some (create_model_health_dd (update_other_sheet_headers w4) now)

/-! ### create_complete_dynamic_model.py -/

/-- Phase 2 of `create_complete_dynamic_model.py`
(`create_xauconfig_timeline`): recreates `XAUconfig`; writes the gold
price (row 3), the 60 month labels (Dec 2025 start, row 4) and the
dropdown source labels (row 6). -/
def create_xauconfig_timeline_complete (wb : Workbook) : Workbook :=
  let wb0 := if wb.sheetnames.contains "XAUconfig" then deleteSheet wb "XAUconfig" else wb
  let wb1 := createSheet wb0 "XAUconfig"
  let wb2 := setCells wb1 "XAUconfig" [
    (1, 1, Value.vstr "XAU Configuration Timeline"),
    (1, 2, Value.vstr "Description"),
    (2, 2, Value.vstr "60-month timeline: Dec '25 - Nov '30"),
    (1, 4, Value.vstr "Month Label"),
    (1, 6, Value.vstr "Date Dropdown List"),
    (1, 3, Value.vstr "Gold Price (CAGR)")]
  (List.range 60).foldl (fun w k =>
    setCell (setCell (setCell w "XAUconfig" (k + 2) 3 (Value.vgold k))
      "XAUconfig" (k + 2) 4 (Value.vstr (monthLabelFrom 2025 12 k)))
      "XAUconfig" (k + 2) 6 (Value.vstr (monthLabelFrom 2025 12 k))) wb2

/-- Phase 3 of `create_complete_dynamic_model.py`
(`setup_mine_inventory_with_dropdowns`): as the dropdowns variant except
that the offset-column header reads `Month Offset`. -/
def setup_mine_inventory_with_dropdowns_complete (wb : Workbook) : Option Workbook :=
  if wb.sheetnames.contains "Mine Inventory" then
    let wb1 := setCell (setCell wb "Mine Inventory" 2 2 (Value.vstr "Dec '25"))
      "Mine Inventory" 2 3 (Value.vstr "Jan '26")
    let wb2 := setCell wb1 "Mine Inventory" 41 1 (Value.vstr "Month Offset")
    some ((List.range' 2 12).foldl (fun w row =>
      if isFalsy (w.cell "Mine Inventory" 1 row) ||
          strContains (pyStr (w.cell "Mine Inventory" 1 row)) "Total" then w
      else
        setCell (addDvRef w "Mine Inventory" ("B" ++ natToDec row))
          "Mine Inventory" 41 row (Value.vstr (matchFormula row))) wb2)
  else none

/-- The `direct_sum_rows` table of `update_resource_supply_complete`:
(resource row, Mine Inventory column or `None`, description, kind). -/
def direct_sum_rows : List (Nat × Option String × String × String) :=
  [(3, none, "# of mines", "COUNT"),
   (4, some "F", "Registered Resources", "SUMIF"),
   (5, some "M", "Authorized Resources", "SUMIF"),
   (6, some "P", "Releasable Resources", "SUMIF"),
   (7, some "Q", "Unlocked Resources", "SUMIF"),
   (11, some "R", "RGT Liquidity Fee", "SUMIF")]

/-- How Python's f-string renders the optional Mine Inventory column
(`None` renders as the text `None`). -/
def optColStr : Option String → String
  | some s => s
  | none => "None"

/-- The row-8..16 calculated formulas of `update_resource_supply_complete`
for column letter `L` and month offset `off`. -/
def completeCalcWrites (c : Nat) : List (Nat × Nat × Value) :=
  [(c, 8, Value.vstr ("=" ++ get_column_letter c ++ "5*Inputs!$B$26")),
   (c, 9, Value.vstr ("=SUMPRODUCT(('Mine Inventory'!$AO$2:$AO$13=" ++ natToDec (c - 2) ++
     ")*('Mine Inventory'!$Q$2:$Q$13)*('Mine Inventory'!$AE$2:$AE$13))")),
   (c, 10, Value.vstr ("=" ++ get_column_letter c ++ "7*Inputs!$B$26")),
   (c, 12, Value.vstr ("=" ++ get_column_letter c ++ "11+SUMPRODUCT(('Mine Inventory'!$AO$2:$AO$13=" ++
     natToDec (c - 2) ++ ")*('Mine Inventory'!$Q$2:$Q$13)*('Mine Inventory'!$AF$2:$AF$13))")),
   (c, 13, Value.vstr ("=" ++ get_column_letter c ++ "12*Inputs!$B$26")),
   (c, 14, Value.vstr ("=SUM(" ++ get_column_letter c ++ "8+" ++ get_column_letter c ++ "10)")),
   (c, 15, Value.vstr ("=" ++ get_column_letter c ++ "9-" ++ get_column_letter c ++ "10")),
   (c, 16, Value.vstr ("=" ++ get_column_letter c ++ "12-" ++ get_column_letter c ++ "13"))]

/-- The row-18..27 dollar-conversion formulas of
`update_resource_supply_complete` for column index `c`. -/
def completeDollarWrites (c : Nat) : List (Nat × Nat × Value) :=
  [(c, 18, Value.vstr ("=" ++ get_column_letter c ++ "4*XAUconfig!" ++ get_column_letter c ++ "3")),
   (c, 19, Value.vstr ("=" ++ get_column_letter c ++ "5*XAUconfig!" ++ get_column_letter c ++ "3")),
   (c, 20, Value.vstr ("=" ++ get_column_letter c ++ "6*XAUconfig!" ++ get_column_letter c ++ "3")),
   (c, 21, Value.vstr ("=" ++ get_column_letter c ++ "7*XAUconfig!" ++ get_column_letter c ++ "3")),
   (c, 22, Value.vstr ("=" ++ get_column_letter c ++ "8*XAUconfig!" ++ get_column_letter c ++ "3")),
   (c, 23, Value.vstr ("=" ++ get_column_letter c ++ "10*XAUconfig!" ++ get_column_letter c ++ "3")),
   (c, 24, Value.vstr ("=" ++ get_column_letter c ++ "13*XAUconfig!" ++ get_column_letter c ++ "3")),
   (c, 25, Value.vstr ("=" ++ get_column_letter c ++ "22+" ++ get_column_letter c ++ "23")),
   (c, 26, Value.vstr ("=" ++ get_column_letter c ++ "15*XAUconfig!" ++ get_column_letter c ++ "3")),
   (c, 27, Value.vstr ("=" ++ get_column_letter c ++ "16*XAUconfig!" ++ get_column_letter c ++ "3"))]

/-- The row-30..40 cumulative-total formulas of
`update_resource_supply_complete` for column index `c`. -/
def completeCumulativeWrites (c : Nat) : List (Nat × Nat × Value) :=
  [(c, 30, Value.vstr ("=SUM($B$4:" ++ get_column_letter c ++ "4)")),
   (c, 31, Value.vstr ("=SUM($B$5:" ++ get_column_letter c ++ "5)")),
   (c, 32, Value.vstr ("=SUM($B$6:" ++ get_column_letter c ++ "6)")),
   (c, 33, Value.vstr ("=SUM($B$7:" ++ get_column_letter c ++ "8)/2")),
   (c, 34, Value.vstr ("=SUM($B$16:" ++ get_column_letter c ++ "16)")),
   (c, 36, Value.vstr ("=SUM($B$18:" ++ get_column_letter c ++ "18)")),
   (c, 37, Value.vstr ("=SUM($B$19:" ++ get_column_letter c ++ "19)")),
   (c, 38, Value.vstr ("=SUM($B$20:" ++ get_column_letter c ++ "20)")),
   (c, 39, Value.vstr ("=" ++ get_column_letter c ++ "33*XAUconfig!" ++ get_column_letter c ++ "3")),
   (c, 40, Value.vstr ("=" ++ get_column_letter c ++ "34*XAUconfig!" ++ get_column_letter c ++ "3"))]

/-- The `annual_columns` table of `update_resource_supply_complete`:
year label with first and last column index of the year. -/
def annual_columns : List (String × Nat × Nat) :=
  [("Year 2026", 14, 25), ("Year 2027", 26, 37), ("Year 2028", 38, 49), ("Year 2029", 50, 61)]

/-- One annual-summary `=SUM(<start><row>:<end><row>)` formula. -/
def annualSum (startCol endCol srcRow : Nat) : Value :=
  Value.vstr ("=SUM(" ++ get_column_letter startCol ++ natToDec srcRow ++ ":" ++
    get_column_letter endCol ++ natToDec srcRow ++ ")")

/-- The writes of one `annual_columns` entry (year number into row 42 of
the summary column, `SUM` formulas into rows 43–52 and 54). -/
def annualWrites (yearLabel : String) (startCol endCol : Nat) : List (Nat × Nat × Value) :=
  [(endCol, 42, Value.vnum (((intParse ((pySplitWs yearLabel).getD 1 "")).getD 0 : Nat) : ℚ)),
   (endCol, 43, annualSum startCol endCol 3),
   (endCol, 44, annualSum startCol endCol 18),
   (endCol, 45, annualSum startCol endCol 19),
   (endCol, 46, annualSum startCol endCol 20),
   (endCol, 47, annualSum startCol endCol 21),
   (endCol, 48, annualSum startCol endCol 22),
   (endCol, 49, annualSum startCol endCol 23),
   (endCol, 50, annualSum startCol endCol 25),
   (endCol, 51, annualSum startCol endCol 26),
   (endCol, 52, annualSum startCol endCol 27),
   (endCol, 54, annualSum startCol endCol 4)]

/-- Phase 4 of `create_complete_dynamic_model.py`
(`update_resource_supply_complete`): headers, the `direct_sum_rows`
COUNTIF/SUMIF block, the calculated rows, the section labels, the dollar
conversions, the cumulative totals and the annual summaries, in program
order. -/
def update_resource_supply_complete (wb : Workbook) : Option Workbook :=
  if wb.sheetnames.contains "Resource Supply (5yr)" then
    let wb1 := (List.range' 2 60).foldl
      (fun w c => setCell w "Resource Supply (5yr)" c 1 (Value.vstr (headerFormula c))) wb
    let wb2 := (List.range' 2 60).foldl (fun w c =>
      direct_sum_rows.foldl (fun w' ri =>
        if ri.2.2.2 = "COUNT" then
          setCell w' "Resource Supply (5yr)" c ri.1 (Value.vstr (countifFormula (c - 2)))
        else
          setCell w' "Resource Supply (5yr)" c ri.1
            (Value.vstr (sumifFormula (optColStr ri.2.1) (c - 2)))) w) wb1
    let wb3 := (List.range' 2 60).foldl
      (fun w c => setCells w "Resource Supply (5yr)" (completeCalcWrites c)) wb2
    let wb4 := setCells wb3 "Resource Supply (5yr)" [
      (1, 18, Value.vstr "Registered Resources ($)"),
      (1, 19, Value.vstr "Authorized Resources ($)"),
      (1, 20, Value.vstr "Releasable Resources ($)"),
      (1, 21, Value.vstr "Unlocked Resources ($)"),
      (1, 22, Value.vstr "Registration Fees ($)"),
      (1, 23, Value.vstr "Unitization Fees ($)"),
      (1, 24, Value.vstr "RealGold Token Minting Fees ($)"),
      (1, 25, Value.vstr "Total Reg & Unit Fee Rev ($)"),
      (1, 26, Value.vstr "Allocation to 1031 ($)"),
      (1, 27, Value.vstr "Allocation to RealGold Treasury ($)")]
    let wb5 := (List.range' 2 60).foldl
      (fun w c => setCells w "Resource Supply (5yr)" (completeDollarWrites c)) wb4
    let wb6 := setCells wb5 "Resource Supply (5yr)" [
      (1, 29, Value.vstr "Resource Supply Cumulative Totals"),
      (1, 30, Value.vstr "Cumulative Registered Resources (oz)"),
      (1, 31, Value.vstr "Cumulative Authorized Resources (oz)"),
      (1, 32, Value.vstr "Cumulative Releaseable Resources (oz)"),
      (1, 33, Value.vstr "Cumulative Unlocked to Markets (oz)"),
      (1, 34, Value.vstr "Cumulative Allocation to RealGold Treasury (oz)"),
      (1, 36, Value.vstr "Cumulative Registered Resources ($)"),
      (1, 37, Value.vstr "Cumulative Authorized Resources ($)"),
      (1, 38, Value.vstr "Cumulative Releasable Resources ($)"),
      (1, 39, Value.vstr "Cumulative Unlocked Resources ($)"),
      (1, 40, Value.vstr "Cumulative Allocation to RealGold Treasury ($)")]
    let wb7 := (List.range' 2 60).foldl
      (fun w c => setCells w "Resource Supply (5yr)" (completeCumulativeWrites c)) wb6
    let wb8 := setCells wb7 "Resource Supply (5yr)" [
      (1, 42, Value.vstr "Annual Summaries"),
      (1, 43, Value.vstr "# of mines brought online"),
      (1, 44, Value.vstr "Assayed Resources ($)"),
      (1, 45, Value.vstr "Authorized Resources ($)"),
      (1, 46, Value.vstr "Releasable Resources ($)"),
      (1, 47, Value.vstr "Released Resources ($)"),
      (1, 48, Value.vstr "Registration Fees ($)"),
      (1, 49, Value.vstr "Market Placement Fee ($)"),
      (1, 50, Value.vstr "Total Fee Revenue ($)"),
      (1, 51, Value.vstr "Total Allocation to 1031 ($)"),
      (1, 52, Value.vstr "Total Allocation to RealGold Treasury ($)"),
      (1, 54, Value.vstr "Assayed Resources (oz)")]
    some (annual_columns.foldl
      (fun w yc => setCells w "Resource Supply (5yr)" (annualWrites yc.1 yc.2.1 yc.2.2)) wb8)
  else none

/-- Phase 5 of `create_complete_dynamic_model.py` (`update_token_supply`). -/
def update_token_supply (wb : Workbook) : Option Workbook :=
  if wb.sheetnames.contains "Token Supply (5yr)" then
    let wb1 := (List.range' 2 60).foldl
      (fun w c => setCell w "Token Supply (5yr)" c 1 (Value.vstr (headerFormula c))) wb
    let wb2 := (List.range' 2 60).foldl (fun w c =>
      setCells w "Token Supply (5yr)" [
        (c, 3, Value.vstr ("='Resource Supply (5yr)'!" ++ get_column_letter c ++ "11")),
        (c, 5, Value.vstr ("=('Resource Supply (5yr)'!" ++ get_column_letter c ++
          "7-'Resource Supply (5yr)'!" ++ get_column_letter c ++
          "10)*SUMPRODUCT(('Mine Inventory'!$AO$2:$AO$13=" ++ natToDec (c - 2) ++
          ")*('Mine Inventory'!$AF$2:$AF$13))")),
        (c, 16, Value.vstr ("=SUM(" ++ get_column_letter c ++ "3:" ++ get_column_letter c ++ "15)")),
        (c, 32, Value.vstr ("=SUM(" ++ get_column_letter c ++ "17:" ++ get_column_letter c ++ "31)"))]) wb1
    some ((List.range' 2 60).foldl (fun w c =>
      setCells w "Token Supply (5yr)" [
        (c, 35, Value.vstr ("=SUM($B$16:" ++ get_column_letter c ++ "16)")),
        (c, 36, Value.vstr ("=SUM($B$32:" ++ get_column_letter c ++ "32)")),
        (c, 37, Value.vstr ("=" ++ get_column_letter c ++ "35*XAUconfig!" ++ get_column_letter c ++ "3")),
        (c, 38, Value.vstr ("=" ++ get_column_letter c ++ "36*XAUconfig!" ++ get_column_letter c ++ "3"))]) wb2)
  else none

/-- Phase 6 of `create_complete_dynamic_model.py` (`update_token_demand`). -/
def update_token_demand (wb : Workbook) : Option Workbook :=
  if wb.sheetnames.contains "Token Demand (5yr)" then
    let wb1 := (List.range' 2 60).foldl
      (fun w c => setCell w "Token Demand (5yr)" c 1 (Value.vstr (headerFormula c))) wb
    some ((List.range' 2 60).foldl (fun w c =>
      setCells w "Token Demand (5yr)" [
        (c, 3, Value.vstr ("='Resource Supply (5yr)'!" ++ get_column_letter c ++ "34")),
        (c, 4, Value.vstr ("='Token Supply (5yr)'!" ++ get_column_letter c ++ "36")),
        (c, 5, Value.vstr ("=" ++ get_column_letter c ++ "3*XAUconfig!" ++ get_column_letter c ++ "3")),
        (c, 6, Value.vstr ("=" ++ get_column_letter c ++ "4*XAUconfig!" ++ get_column_letter c ++ "3")),
        (c, 9, Value.vstr (sumifFormula "W" (c - 2))),
        (c, 11, Value.vstr ("=" ++ get_column_letter c ++ "9*XAUconfig!" ++ get_column_letter c ++ "3")),
        (c, 19, Value.vstr ("=" ++ get_column_letter c ++ "18*XAUconfig!" ++ get_column_letter c ++ "3"))]) wb1)
  else none

/-- The fixed sheet list of `update_other_sheet_headers` in
`create_complete_dynamic_model.py`. -/
def sheets_to_update_cashflow : List String :=
  ["RA LLC Cashflow", "RAF Cashflow (5yr)", "RGT Cashflow (5yr)"]

/-- Phase 7 of `create_complete_dynamic_model.py`
(`update_other_sheet_headers`): cashflow sheet headers only. -/
def update_other_sheet_headers_complete (wb : Workbook) : Workbook :=
  sheets_to_update_cashflow.foldl (fun w sheet_name =>
    if w.sheetnames.contains sheet_name then
      (List.range' 2 60).foldl
        (fun w' c => setCell w' sheet_name c 1 (Value.vstr (headerFormula c))) w
    else w) wb

/-- Phase 8 of `create_complete_dynamic_model.py` (`create_model_health`):
recreates the `Model Health` dashboard; cell B4 receives the formatted
current time. -/
def create_model_health_complete (wb : Workbook) (now : Timestamp) : Workbook :=
  let wb0 := if wb.sheetnames.contains "Model Health" then deleteSheet wb "Model Health" else wb
  let wb1 := createSheet wb0 "Model Health"
  setCells wb1 "Model Health" [
    (1, 1, Value.vstr "RealGold Financial Model - COMPLETE DYNAMIC"),
    (1, 3, Value.vstr "Version"),
    (2, 3, Value.vstr "V2.5 - Complete Dynamic Data Redistribution"),
    (1, 4, Value.vstr "Updated"),
    (2, 4, Value.vstr (fmtTimestamp now)),
    (1, 6, Value.vstr "COMPLETE DATA REDISTRIBUTION"),
    (1, 7, Value.vstr "Instructions"),
    (2, 7, Value.vstr "1. Go to 'Mine Inventory' sheet"),
    (1, 8, Value.vstr ""),
    (2, 8, Value.vstr "2. Click Column B cell, select date from dropdown"),
    (1, 9, Value.vstr ""),
    (2, 9, Value.vstr "3. ALL DATA redistributes automatically:"),
    (1, 10, Value.vstr ""),
    (2, 10, Value.vstr "   - Registered/Authorized/Releasable/Unlocked Resources"),
    (1, 11, Value.vstr ""),
    (2, 11, Value.vstr "   - All fees and allocations"),
    (1, 12, Value.vstr ""),
    (2, 12, Value.vstr "   - All calculated fields"),
    (1, 14, Value.vstr "Data That Redistributes Dynamically"),
    (1, 15, Value.vstr "Mine Count"),
    (2, 15, Value.vstr "COUNTIF"),
    (1, 16, Value.vstr "Registered Resources"),
    (2, 16, Value.vstr "SUMIF on Assayed Au"),
    (1, 17, Value.vstr "Authorized Resources"),
    (2, 17, Value.vstr "SUMIF on Auth. Au"),
    (1, 18, Value.vstr "Releasable Resources"),
    (2, 18, Value.vstr "SUMIF on Lifetime Release"),
    (1, 19, Value.vstr "Unlocked Resources"),
    (2, 19, Value.vstr "SUMIF on Year 1 Unlock"),
    (1, 20, Value.vstr "Unitization Fees"),
    (2, 20, Value.vstr "Calculated from Authorized"),
    (1, 21, Value.vstr "Available 1031 Units"),
    (2, 21, Value.vstr "SUMPRODUCT conditional"),
    (1, 22, Value.vstr "Admin Fees"),
    (2, 22, Value.vstr "Calculated from Unlocked"),
    (1, 23, Value.vstr "RGT Liquidity Fee"),
    (2, 23, Value.vstr "SUMIF on Liquidity Allocation"),
    (1, 24, Value.vstr "Treasury Allocation"),
    (2, 24, Value.vstr "SUMPRODUCT conditional"),
    (1, 25, Value.vstr "Minting Fees"),
    (2, 25, Value.vstr "Calculated"),
    (1, 26, Value.vstr "Total Fees"),
    (2, 26, Value.vstr "Calculated"),
    (1, 27, Value.vstr "1031 Allocation"),
    (2, 27, Value.vstr "Calculated"),
    (1, 28, Value.vstr "Treasury by Trusts"),
    (2, 28, Value.vstr "Calculated")]

/-- The mutation pipeline of `create_complete_dynamic_model.py` `main`
after load (phases 1–8 in program order). -/
def createCompleteDynamic_phases (wb : Workbook) (now : Timestamp) : Option Workbook :=
  (fix_fees wb).bind fun w1 =>
  (setup_mine_inventory_with_dropdowns_complete (create_xauconfig_timeline_complete w1)).bind fun w3 =>
  (update_resource_supply_complete w3).bind fun w4 =>
  (update_token_supply w4).bind fun w5 =>
  (update_token_demand w5).bind fun w6 =>
  some (create_model_health_complete (update_other_sheet_headers_complete w6) now)

/-! ### Script executions

Each script's `main` / `__main__` behaviour, as a function from an
environment to the externally observable outcome. -/

/-- The environment a script run sees: whether the configured input file
exists, the workbook it holds, and the wall-clock time. -/
structure Env where
  inputExists : Bool
  input : Workbook
  now : Timestamp

/-- The observable outcome of one script process:
 * `exitCode` — the process exit code;
 * `wroteOutput` — whether the output workbook file was saved;
 * `reportedMissingInput` — whether the script itself took an explicit
   missing-input-file branch and printed its error line before loading;
 * `caughtAtTopLevel` — whether an exception was caught by the script's
   own `__main__` `try`/`except`, which prints the message and the full
   traceback and calls `sys.exit(1)`;
 * `uncaughtException` — whether an exception escaped the script
   entirely, so that the interpreter printed the traceback and exited
   with code 1. -/
structure RunResult where
  exitCode : Nat
  wroteOutput : Bool
  reportedMissingInput : Bool
  caughtAtTopLevel : Bool
  uncaughtException : Bool
deriving DecidableEq, Repr

/-- `fix_complete_financial_model.py`: explicit existence check before
load; a `__main__` handler around `main`. -/
def fixCompleteFinancialModel_run (env : Env) : RunResult :=
  if env.inputExists then
    match fixCompleteFinancialModel_phases env.input env.now with
    | some _ => ⟨0, true, false, false, false⟩
    | none => ⟨1, false, false, true, false⟩
  else ⟨1, false, true, false, false⟩

/-- `fix_financial_model.py`: no existence check (a missing file raises
`FileNotFoundError` inside `load_workbook`); a `__main__` handler around
`main` catches every exception. -/
def fixFinancialModel_run (env : Env) : RunResult :=
  if env.inputExists then
    match fixFinancialModel_phases env.input env.now with
    | some _ => ⟨0, true, false, false, false⟩
    | none => ⟨1, false, false, true, false⟩
  else ⟨1, false, false, true, false⟩

/-- `fix_realgold_final.py`: explicit existence check; `__main__`
handler. -/
def fixRealgoldFinal_run (env : Env) : RunResult :=
  if env.inputExists then
    match fixRealgoldFinal_phases env.input env.now with
    | some _ => ⟨0, true, false, false, false⟩
    | none => ⟨1, false, false, true, false⟩
  else ⟨1, false, true, false, false⟩

/-- `fix_timeline_to_jan_2025.py`: no existence check and no `__main__`
handler — any exception (including the `FileNotFoundError` for a missing
input) propagates out of the script, the interpreter prints the traceback
and the process exits with code 1; `main` returns `None`, so a completed
run exits 0. -/
def fixTimelineToJan2025_run (env : Env) : RunResult :=
  if env.inputExists then
    match fixTimelineToJan2025_phases env.input with
    | some _ => ⟨0, true, false, false, false⟩
    | none => ⟨1, false, false, false, true⟩
  else ⟨1, false, false, false, true⟩

/-- `create_fully_dynamic_model.py`: explicit existence check; `__main__`
handler. -/
def createFullyDynamic_run (env : Env) : RunResult :=
  if env.inputExists then
    match createFullyDynamic_phases env.input env.now with
    | some _ => ⟨0, true, false, false, false⟩
    | none => ⟨1, false, false, true, false⟩
  else ⟨1, false, true, false, false⟩

/-- `create_dynamic_model_with_dropdowns.py`: explicit existence check;
`__main__` handler. -/
def createDynamicDropdowns_run (env : Env) : RunResult :=
  if env.inputExists then
    match createDynamicDropdowns_phases env.input env.now with
    | some _ => ⟨0, true, false, false, false⟩
    | none => ⟨1, false, false, true, false⟩
  else ⟨1, false, true, false, false⟩

/-- `create_complete_dynamic_model.py`: explicit existence check;
`__main__` handler. -/
def createCompleteDynamic_run (env : Env) : RunResult :=
  if env.inputExists then
    match createCompleteDynamic_phases env.input env.now with
    | some _ => ⟨0, true, false, false, false⟩
    | none => ⟨1, false, false, true, false⟩
  else ⟨1, false, true, false, false⟩

/-! ### verify_fully_dynamic.py and test_dynamic_date_changes.py -/

/-- The six summary checks of `verify_fully_dynamic.py` (lines 56–91), as
booleans in source order; the script renders each as a `✓`/`✗` line. -/
def verifyFullyDynamic_checks (wb : Workbook) : List Bool :=
  [pyEqStr (wb.cell "XAUconfig" 2 4) "Dec '25",
   pyEqStr (wb.cell "Mine Inventory" 2 2) "Dec '25",
   !isFalsy (wb.cell "Mine Inventory" 41 2) &&
     strContains (pyStr (wb.cell "Mine Inventory" 41 2)) "MATCH",
   !isFalsy (wb.cell "Resource Supply (5yr)" 2 3) &&
     strContains (pyStr (wb.cell "Resource Supply (5yr)" 2 3)) "COUNTIF",
   !isFalsy (wb.cell "Resource Supply (5yr)" 2 5) &&
     strContains (pyStr (wb.cell "Resource Supply (5yr)" 2 5)) "SUMIF",
   pyEqNum (wb.cell "Inputs" 2 26) (1/10000)]

/-- The sheets `verify_fully_dynamic.py` opens before its checks. -/
def verifyFullyDynamic_sheetsPresent (wb : Workbook) : Bool :=
  wb.sheetnames.contains "XAUconfig" && wb.sheetnames.contains "Mine Inventory" &&
    wb.sheetnames.contains "Resource Supply (5yr)" && wb.sheetnames.contains "Inputs"

/-- `verify_fully_dynamic.py`: no handler anywhere; `main` computes and
prints the checks but always returns `None`, and the bare `main()` call
under `__main__` means the process exits 0 whenever the script completes,
regardless of check outcomes; it writes no file. -/
def verifyFullyDynamic_run (env : Env) : RunResult :=
  if env.inputExists then
    if verifyFullyDynamic_sheetsPresent env.input then
      let _checks := verifyFullyDynamic_checks env.input
      ⟨0, false, false, false, false⟩
    else ⟨1, false, false, false, true⟩
  else ⟨1, false, false, false, true⟩

/-- `test_dynamic_date_changes.py`: no handler; mutates `Mine Inventory`
B2/B3 in memory, re-reads `Resource Supply (5yr)`, saves a test output
file, and returns `None` — exit code 0 on every completed run. -/
def testDynamicDateChanges_run (env : Env) : RunResult :=
  if env.inputExists then
    if env.input.sheetnames.contains "Mine Inventory" &&
        env.input.sheetnames.contains "Resource Supply (5yr)" then
      ⟨0, true, false, false, false⟩
    else ⟨1, false, false, false, true⟩
  else ⟨1, false, false, false, true⟩

/-! ### The five checkers that report through `sys.exit(main())`

Each of the remaining checker scripts builds a list of pass/fail lines
(one `✓`/`✗` line per test) and returns 0 from `main` exactly when no
test failed; the `__main__` block is `sys.exit(main())`, so the exit code
is 0 iff every check passed.  Each list below holds one boolean per
appended line, in source order. -/

/-- `value and isinstance(value, str) and needle in value`, the
formula-presence test of `verify_all_rows.py` (lines 41–42) and the
nested truthy/`isinstance`/`in` test of
`verify_complete_redistribution.py` (lines 53–66) at `needle = "="`. -/
def hasStrWith (v : Value) (needle : String) : Bool :=
  match v with
  | Value.vstr s => !s.data.isEmpty && strContains s needle
  | _ => false

/-- `formula and needle in str(formula)`, the test shape used throughout
the checker scripts. -/
def truthyWith (v : Value) (needle : String) : Bool :=
  !isFalsy v && strContains (pyStr v) needle

/-- The 14 result lines of `test_all_data_redistribution.py` (lines
23–84): five SUMIF column references, the COUNTIF row, three fee rows,
two SUMPRODUCT rows, three difference rows. -/
def testAllDataRedistribution_checks (wb : Workbook) : List Bool :=
  let rs := fun (r : Nat) => wb.cell "Resource Supply (5yr)" 2 r
  [truthyWith (rs 4) "$F$",
   truthyWith (rs 5) "$M$",
   truthyWith (rs 6) "$P$",
   truthyWith (rs 7) "$Q$",
   truthyWith (rs 11) "$R$",
   truthyWith (rs 3) "COUNTIF",
   truthyWith (rs 8) "B5" && strContains (pyStr (rs 8)) "Inputs!$B$26",
   truthyWith (rs 10) "B7" && strContains (pyStr (rs 10)) "Inputs!$B$26",
   truthyWith (rs 13) "B12" && strContains (pyStr (rs 13)) "Inputs!$B$26",
   truthyWith (rs 9) "SUMPRODUCT" && strContains (pyStr (rs 9)) "=0)",
   truthyWith (rs 12) "SUMPRODUCT" && strContains (pyStr (rs 12)) "=0)",
   truthyWith (rs 14) "B8+B10",
   truthyWith (rs 15) "B9-B10",
   truthyWith (rs 16) "B12-B13"]

/-- `test_all_data_redistribution.py`: opens `Resource Supply (5yr)`,
runs its 14 tests, returns 0 iff none failed; `sys.exit(main())`, no
handler, no file write. -/
def testAllDataRedistribution_run (env : Env) : RunResult :=
  if env.inputExists then
    if env.input.sheetnames.contains "Resource Supply (5yr)" then
      ⟨if (testAllDataRedistribution_checks env.input).all id then 0 else 1,
       false, false, false, false⟩
    else ⟨1, false, false, false, true⟩
  else ⟨1, false, false, false, true⟩

/-- The four validation checks of `test_formula_structure.py` (lines
64–99): `AO2` references `B2`, `Resource Supply` `B5` references the
`$AO$` range, `AO2` uses the absolute `$B$4:$BI$4` range, and every
column 2–61 of row 5 holds a SUMIF formula.  The first three apply
`str()` without a truthiness guard. -/
def testFormulaStructure_checks (wb : Workbook) : List Bool :=
  [strContains (pyStr (wb.cell "Mine Inventory" 41 2)) "B2",
   strContains (pyStr (wb.cell "Resource Supply (5yr)" 2 5)) "$AO$",
   strContains (pyStr (wb.cell "Mine Inventory" 41 2)) "$B$4:$BI$4",
   (List.range' 2 60).all fun c =>
     truthyWith (wb.cell "Resource Supply (5yr)" c 5) "SUMIF"]

/-- `test_formula_structure.py`: opens `Mine Inventory` and
`Resource Supply (5yr)`, returns 0 iff every check line got a `✓`;
`sys.exit(main())`, no handler, no file write. -/
def testFormulaStructure_run (env : Env) : RunResult :=
  if env.inputExists then
    if env.input.sheetnames.contains "Mine Inventory" &&
        env.input.sheetnames.contains "Resource Supply (5yr)" then
      ⟨if (testFormulaStructure_checks env.input).all id then 0 else 1,
       false, false, false, false⟩
    else ⟨1, false, false, false, true⟩
  else ⟨1, false, false, false, true⟩

/-- The row list of `verify_all_rows.py` line 30:
`range(3,17)+range(18,28)+range(30,35)+range(36,41)+range(43,55)`. -/
def verifyAllRows_rows : List Nat :=
  List.range' 3 14 ++ List.range' 18 10 ++ List.range' 30 5 ++
    List.range' 36 5 ++ List.range' 43 12

/-- One row of the `verify_all_rows.py` scan (lines 35–53) is not
reported missing when its column-A label is falsy (the row is skipped)
or both its B and C cells hold truthy strings containing `=`. -/
def verifyAllRows_rowOk (wb : Workbook) (r : Nat) : Bool :=
  isFalsy (wb.cell "Resource Supply (5yr)" 1 r) ||
    (hasStrWith (wb.cell "Resource Supply (5yr)" 2 r) "=" &&
     hasStrWith (wb.cell "Resource Supply (5yr)" 3 r) "=")

/-- The per-row outcomes that feed `verify_all_rows.py`'s exit code: the
script returns 1 iff `missing_formulas` is nonempty, and a row is added
to it exactly when `verifyAllRows_rowOk` is false there.  (The annual
summary section, lines 56–70, only prints and never affects the return
value.) -/
def verifyAllRows_checks (wb : Workbook) : List Bool :=
  verifyAllRows_rows.map (verifyAllRows_rowOk wb)

/-- `verify_all_rows.py`: opens `Resource Supply (5yr)` and `XAUconfig`,
returns 0 iff no scanned row is missing a formula; `sys.exit(main())`,
no handler, no file write. -/
def verifyAllRows_run (env : Env) : RunResult :=
  if env.inputExists then
    if env.input.sheetnames.contains "Resource Supply (5yr)" &&
        env.input.sheetnames.contains "XAUconfig" then
      ⟨if (verifyAllRows_checks env.input).all id then 0 else 1,
       false, false, false, false⟩
    else ⟨1, false, false, false, true⟩
  else ⟨1, false, false, false, true⟩

/-- The check lines of `verify_complete_redistribution.py`: rows 3–16
must hold truthy strings containing `=` in both B and C (lines 44–66);
fourteen per-row formula-type substring tests (lines 73–97); one
60-month coverage check on row 5 (lines 105–120); and, only when both
`B5` and `C5` are truthy, one offset-progression check (lines 125–136 —
nothing is appended when either is falsy). -/
def verifyCompleteRedistribution_checks (wb : Workbook) : List Bool :=
  let rs := fun (c r : Nat) => wb.cell "Resource Supply (5yr)" c r
  ((List.range' 3 14).map fun r => hasStrWith (rs 2 r) "=" && hasStrWith (rs 3 r) "=") ++
  [truthyWith (rs 2 3) "COUNTIF",
   truthyWith (rs 2 4) "SUMIF",
   truthyWith (rs 2 5) "SUMIF",
   truthyWith (rs 2 6) "SUMIF",
   truthyWith (rs 2 7) "SUMIF",
   truthyWith (rs 2 8) "Inputs!$B$26",
   truthyWith (rs 2 9) "SUMPRODUCT",
   truthyWith (rs 2 10) "Inputs!$B$26",
   truthyWith (rs 2 11) "SUMIF",
   truthyWith (rs 2 12) "SUMPRODUCT",
   truthyWith (rs 2 13) "Inputs!$B$26",
   truthyWith (rs 2 14) "SUM",
   truthyWith (rs 2 15) "B9-B10",
   truthyWith (rs 2 16) "B12-B13",
   (List.range' 2 60).all fun c => truthyWith (rs c 5) "SUMIF"] ++
  (if !isFalsy (rs 2 5) && !isFalsy (rs 3 5) then
    [strContains (pyStr (rs 2 5)) ",0," && strContains (pyStr (rs 3 5)) ",1,"]
  else [])

/-- `verify_complete_redistribution.py`: opens `Resource Supply (5yr)`,
returns 0 iff no check line failed; `sys.exit(main())`, no handler, no
file write. -/
def verifyCompleteRedistribution_run (env : Env) : RunResult :=
  if env.inputExists then
    if env.input.sheetnames.contains "Resource Supply (5yr)" then
      ⟨if (verifyCompleteRedistribution_checks env.input).all id then 0 else 1,
       false, false, false, false⟩
    else ⟨1, false, false, false, true⟩
  else ⟨1, false, false, false, true⟩

/-- The eight summary checks of `verify_dropdowns.py` (lines 88–143):
timeline/dropdown start labels, the Courbet date, at least one data
validation on `Mine Inventory`, the `AO2` MATCH formula, the
COUNTIF/SUMIF rows of `Resource Supply (5yr)`, the 0.0001 unitization
fee, and every present time-based sheet linked to `XAUconfig` via its
`B1` header. -/
def verifyDropdowns_checks (wb : Workbook) : List Bool :=
  [pyEqStr (wb.cell "XAUconfig" 2 4) "Dec '25" &&
     pyEqStr (wb.cell "XAUconfig" 2 6) "Dec '25",
   pyEqStr (wb.cell "Mine Inventory" 2 2) "Dec '25",
   !(wb.dvRefs.filter fun p => p.1 == "Mine Inventory").isEmpty,
   truthyWith (wb.cell "Mine Inventory" 41 2) "MATCH",
   truthyWith (wb.cell "Resource Supply (5yr)" 2 3) "COUNTIF",
   truthyWith (wb.cell "Resource Supply (5yr)" 2 5) "SUMIF",
   pyEqNum (wb.cell "Inputs" 2 26) (1/10000),
   ["Token Supply (5yr)", "Token Demand (5yr)", "RA LLC Cashflow",
    "RAF Cashflow (5yr)", "RGT Cashflow (5yr)"].all fun s =>
      !wb.sheetnames.contains s || truthyWith (wb.cell s 2 1) "XAUconfig"]

/-- `verify_dropdowns.py`: opens `XAUconfig`, `Mine Inventory`,
`Resource Supply (5yr)` and `Inputs` (the five time-based sheets are
only read when present), returns 0 iff every summary check passed;
`sys.exit(main())`, no handler, no file write. -/
def verifyDropdowns_run (env : Env) : RunResult :=
  if env.inputExists then
    if env.input.sheetnames.contains "XAUconfig" &&
        env.input.sheetnames.contains "Mine Inventory" &&
        env.input.sheetnames.contains "Resource Supply (5yr)" &&
        env.input.sheetnames.contains "Inputs" then
      ⟨if (verifyDropdowns_checks env.input).all id then 0 else 1,
       false, false, false, false⟩
    else ⟨1, false, false, false, true⟩
  else ⟨1, false, false, false, true⟩

/-! ### Claim C2 — the fee-fix phase -/

/-- C2: for every input workbook on which a fee-fix phase completes, cell
B26 of the `Inputs` sheet afterwards holds the literal `0.0001`, and cell
B25 holds exactly the value it held before (the phase reads B25 but never
writes it).  Covers `fix_inputs_sheet` (fix_complete_financial_model.py),
`fix_fee_structure` (fix_financial_model.py), and the sibling phases
`fix_fees` and `fix_unitization_fee`. -/
theorem c2_fee_fix_sets_b26_preserves_b25 (wb : Workbook) :
    (∀ wb', fix_inputs_sheet wb = some wb' →
      wb'.cell "Inputs" 2 26 = Value.vnum (1/10000) ∧
      wb'.cell "Inputs" 2 25 = wb.cell "Inputs" 2 25) ∧
    (∀ wb', fix_fee_structure wb = some wb' →
      wb'.cell "Inputs" 2 26 = Value.vnum (1/10000) ∧
      wb'.cell "Inputs" 2 25 = wb.cell "Inputs" 2 25) ∧
    (∀ wb', fix_fees wb = some wb' →
      wb'.cell "Inputs" 2 26 = Value.vnum (1/10000) ∧
      wb'.cell "Inputs" 2 25 = wb.cell "Inputs" 2 25) ∧
    (∀ wb', fix_unitization_fee wb = some wb' →
      wb'.cell "Inputs" 2 26 = Value.vnum (1/10000) ∧
      wb'.cell "Inputs" 2 25 = wb.cell "Inputs" 2 25) := by
  refine ⟨?_, ?_, ?_, ?_⟩
  · intro wb' h
    rw [fix_inputs_sheet] at h
    split at h
    · rw [Option.some.injEq] at h
      subst h
      refine ⟨by simp [cell_setCell], by simp [cell_setCell]⟩
    · cases h
  · intro wb' h
    rw [fix_fee_structure] at h
    split at h
    · split at h
      · split at h
        · cases h
        · dsimp only at h
          split at h
          · rw [Option.some.injEq] at h
            subst h
            refine ⟨by simp [cell_setCell], by simp [cell_setCell]⟩
          · cases h
      · cases h
    · cases h
  · intro wb' h
    rw [fix_fees] at h
    split at h
    · rw [Option.some.injEq] at h
      subst h
      refine ⟨by simp [cell_setCell], by simp [cell_setCell]⟩
    · cases h
  · intro wb' h
    rw [fix_unitization_fee] at h
    split at h
    · rw [Option.some.injEq] at h
      subst h
      refine ⟨by simp [cell_setCell], by simp [cell_setCell]⟩
    · cases h

/-- The scenario workbook of the spec: `Inputs!B26 = 0.005`,
`Inputs!B25 = 0.0001`. -/
def feeScenarioWb : Workbook :=
  { sheetnames := ["Inputs"]
    cell := fun s c r =>
      if s = "Inputs" ∧ c = 2 ∧ r = 26 then Value.vnum (5/1000)
      else if s = "Inputs" ∧ c = 2 ∧ r = 25 then Value.vnum (1/10000)
      else Value.vnone
    maxCol := fun _ => 2
    maxRow := fun _ => 26
    dvRefs := [] }

/-- Witness for C2 at the spec's example scenario. -/
theorem c2_witness :
    (setCell feeScenarioWb "Inputs" 2 26 (Value.vnum (1/10000))).cell "Inputs" 2 26 =
      Value.vnum (1/10000) ∧
    (setCell feeScenarioWb "Inputs" 2 26 (Value.vnum (1/10000))).cell "Inputs" 2 25 =
      feeScenarioWb.cell "Inputs" 2 25 :=
  (c2_fee_fix_sets_b26_preserves_b25 feeScenarioWb).2.1
    (setCell feeScenarioWb "Inputs" 2 26 (Value.vnum (1/10000))) (by
      rw [fix_fee_structure]
      rw [show feeScenarioWb.cell "Inputs" 2 26 = Value.vnum (5/1000) from rfl]
      rw [if_pos (show feeScenarioWb.sheetnames.contains "Inputs" = true from rfl)]
      dsimp only
      rw [if_neg (show ¬((5 : ℚ)/1000 = 0) by norm_num)]
      rfl)

/-! ### Claim C3 — missing input file -/

/-- C3 (amended): when the configured input file is absent, every patcher
exits with code 1 and writes no output file, but only five of the seven
detect it explicitly before loading (`fix_complete_financial_model.py`,
`fix_realgold_final.py`, and the three `create_*` scripts);
`fix_financial_model.py` has no existence check and reaches its generic
top-level handler via the `FileNotFoundError` from `load_workbook`, and
`fix_timeline_to_jan_2025.py` has neither check nor handler, so the
exception escapes uncaught. -/
theorem c3_missing_input_behaviour (env : Env) (h : env.inputExists = false) :
    fixCompleteFinancialModel_run env = ⟨1, false, true, false, false⟩ ∧
    fixRealgoldFinal_run env = ⟨1, false, true, false, false⟩ ∧
    createFullyDynamic_run env = ⟨1, false, true, false, false⟩ ∧
    createDynamicDropdowns_run env = ⟨1, false, true, false, false⟩ ∧
    createCompleteDynamic_run env = ⟨1, false, true, false, false⟩ ∧
    fixFinancialModel_run env = ⟨1, false, false, true, false⟩ ∧
    fixTimelineToJan2025_run env = ⟨1, false, false, false, true⟩ := by
  refine ⟨?_, ?_, ?_, ?_, ?_, ?_, ?_⟩ <;>
    simp [fixCompleteFinancialModel_run, fixRealgoldFinal_run, createFullyDynamic_run,
      createDynamicDropdowns_run, createCompleteDynamic_run, fixFinancialModel_run,
      fixTimelineToJan2025_run, h]

/-- An environment whose configured input file is absent. -/
def envMissing : Env := ⟨false, emptyWorkbook, ⟨2025, 11, 27, 12, 0, 0⟩⟩

/-- Counterexample for C3 as stated: with the input file absent,
`fix_timeline_to_jan_2025.py` performs no explicit detection and prints
no error line of its own (the interpreter reports the uncaught
`FileNotFoundError`), although it does exit 1 without an output file. -/
theorem c3_counterexample :
    (fixTimelineToJan2025_run envMissing).exitCode = 1 ∧
    (fixTimelineToJan2025_run envMissing).reportedMissingInput = false ∧
    (fixTimelineToJan2025_run envMissing).uncaughtException = true ∧
    (fixTimelineToJan2025_run envMissing).wroteOutput = false := by
  refine ⟨rfl, rfl, rfl, rfl⟩

/-- Witness for C3's amended theorem at the concrete absent-file
environment. -/
theorem c3_witness :
    fixCompleteFinancialModel_run envMissing = ⟨1, false, true, false, false⟩ ∧
    fixFinancialModel_run envMissing = ⟨1, false, false, true, false⟩ :=
  ⟨(c3_missing_input_behaviour envMissing rfl).1,
   (c3_missing_input_behaviour envMissing rfl).2.2.2.2.2.1⟩

/-! ### Claim C4 — top-level exception handling -/

/-- C4 (amended): when the input file exists and an exception escapes the
mutation pipeline, six of the seven patchers
(`fix_complete_financial_model.py`, `fix_financial_model.py`,
`fix_realgold_final.py`, `create_fully_dynamic_model.py`,
`create_dynamic_model_with_dropdowns.py`,
`create_complete_dynamic_model.py`) catch it once in their `__main__`
handler, print its message and full traceback, and exit 1 without
writing output; `fix_timeline_to_jan_2025.py` has no such handler — the
exception propagates uncaught (the interpreter prints the traceback and
the process exits 1). -/
theorem c4_toplevel_exception_handling (env : Env) (h : env.inputExists = true) :
    (fixCompleteFinancialModel_phases env.input env.now = none →
      fixCompleteFinancialModel_run env = ⟨1, false, false, true, false⟩) ∧
    (fixFinancialModel_phases env.input env.now = none →
      fixFinancialModel_run env = ⟨1, false, false, true, false⟩) ∧
    (fixRealgoldFinal_phases env.input env.now = none →
      fixRealgoldFinal_run env = ⟨1, false, false, true, false⟩) ∧
    (createFullyDynamic_phases env.input env.now = none →
      createFullyDynamic_run env = ⟨1, false, false, true, false⟩) ∧
    (createDynamicDropdowns_phases env.input env.now = none →
      createDynamicDropdowns_run env = ⟨1, false, false, true, false⟩) ∧
    (createCompleteDynamic_phases env.input env.now = none →
      createCompleteDynamic_run env = ⟨1, false, false, true, false⟩) ∧
    (fixTimelineToJan2025_phases env.input = none →
      fixTimelineToJan2025_run env = ⟨1, false, false, false, true⟩) := by
  refine ⟨?_, ?_, ?_, ?_, ?_, ?_, ?_⟩ <;> intro hp <;>
    simp [fixCompleteFinancialModel_run, fixFinancialModel_run, fixRealgoldFinal_run,
      createFullyDynamic_run, createDynamicDropdowns_run, createCompleteDynamic_run,
      fixTimelineToJan2025_run, h, hp]

/-- An environment whose input file exists but whose workbook has no
sheets, so every pipeline's first sheet access raises `KeyError`. -/
def envNoSheets : Env := ⟨true, emptyWorkbook, ⟨2025, 11, 27, 12, 0, 0⟩⟩

/-- Counterexample for C4 as stated: an exception during the mutation of
`fix_timeline_to_jan_2025.py` (here the `KeyError` for the missing
`XAUconfig` sheet) is not caught at any top level of that program. -/
theorem c4_counterexample :
    (fixTimelineToJan2025_run envNoSheets).exitCode = 1 ∧
    (fixTimelineToJan2025_run envNoSheets).caughtAtTopLevel = false ∧
    (fixTimelineToJan2025_run envNoSheets).uncaughtException = true := by
  refine ⟨rfl, rfl, rfl⟩

/-- Witness for C4's amended theorem at the concrete sheetless
environment, for all seven patchers. -/
theorem c4_witness :
    fixCompleteFinancialModel_run envNoSheets = ⟨1, false, false, true, false⟩ ∧
    fixFinancialModel_run envNoSheets = ⟨1, false, false, true, false⟩ ∧
    fixRealgoldFinal_run envNoSheets = ⟨1, false, false, true, false⟩ ∧
    createFullyDynamic_run envNoSheets = ⟨1, false, false, true, false⟩ ∧
    createDynamicDropdowns_run envNoSheets = ⟨1, false, false, true, false⟩ ∧
    createCompleteDynamic_run envNoSheets = ⟨1, false, false, true, false⟩ ∧
    fixTimelineToJan2025_run envNoSheets = ⟨1, false, false, false, true⟩ :=
  ⟨(c4_toplevel_exception_handling envNoSheets rfl).1 rfl,
   (c4_toplevel_exception_handling envNoSheets rfl).2.1 rfl,
   (c4_toplevel_exception_handling envNoSheets rfl).2.2.1 rfl,
   (c4_toplevel_exception_handling envNoSheets rfl).2.2.2.1 rfl,
   (c4_toplevel_exception_handling envNoSheets rfl).2.2.2.2.1 rfl,
   (c4_toplevel_exception_handling envNoSheets rfl).2.2.2.2.2.1 rfl,
   (c4_toplevel_exception_handling envNoSheets rfl).2.2.2.2.2.2 rfl⟩

/-! ### Claim C5 — checker scripts -/

/-- C5 (amended): five of the seven checker scripts
(`test_all_data_redistribution.py`, `test_formula_structure.py`,
`verify_all_rows.py`, `verify_complete_redistribution.py`,
`verify_dropdowns.py`) report through `sys.exit(main())`: a completed
run exits 0 exactly when every one of their checks passes and 1
otherwise, with no side effect beyond console output.  The two cited
deviants do not: `verify_fully_dynamic.py`'s `main` returns `None`, so a
completed run exits 0 whatever its checks printed, and
`test_dynamic_date_changes.py` likewise exits 0 on every completed run
and, far from being side-effect free, saves a test output workbook.
None has a handler, so all seven raise an uncaught exception
(interpreter exit 1) when the input file is absent. -/
theorem c5_checker_exit_behaviour (env : Env) :
    (env.inputExists = true → verifyFullyDynamic_sheetsPresent env.input = true →
      verifyFullyDynamic_run env = ⟨0, false, false, false, false⟩) ∧
    (env.inputExists = true →
      (env.input.sheetnames.contains "Mine Inventory" &&
        env.input.sheetnames.contains "Resource Supply (5yr)") = true →
      testDynamicDateChanges_run env = ⟨0, true, false, false, false⟩) ∧
    (env.inputExists = true →
      env.input.sheetnames.contains "Resource Supply (5yr)" = true →
      testAllDataRedistribution_run env =
        ⟨if (testAllDataRedistribution_checks env.input).all id then 0 else 1,
         false, false, false, false⟩ ∧
      verifyCompleteRedistribution_run env =
        ⟨if (verifyCompleteRedistribution_checks env.input).all id then 0 else 1,
         false, false, false, false⟩) ∧
    (env.inputExists = true →
      (env.input.sheetnames.contains "Mine Inventory" &&
        env.input.sheetnames.contains "Resource Supply (5yr)") = true →
      testFormulaStructure_run env =
        ⟨if (testFormulaStructure_checks env.input).all id then 0 else 1,
         false, false, false, false⟩) ∧
    (env.inputExists = true →
      (env.input.sheetnames.contains "Resource Supply (5yr)" &&
        env.input.sheetnames.contains "XAUconfig") = true →
      verifyAllRows_run env =
        ⟨if (verifyAllRows_checks env.input).all id then 0 else 1,
         false, false, false, false⟩) ∧
    (env.inputExists = true →
      (env.input.sheetnames.contains "XAUconfig" &&
        env.input.sheetnames.contains "Mine Inventory" &&
        env.input.sheetnames.contains "Resource Supply (5yr)" &&
        env.input.sheetnames.contains "Inputs") = true →
      verifyDropdowns_run env =
        ⟨if (verifyDropdowns_checks env.input).all id then 0 else 1,
         false, false, false, false⟩) ∧
    (env.inputExists = false →
      verifyFullyDynamic_run env = ⟨1, false, false, false, true⟩ ∧
      testDynamicDateChanges_run env = ⟨1, false, false, false, true⟩ ∧
      testAllDataRedistribution_run env = ⟨1, false, false, false, true⟩ ∧
      testFormulaStructure_run env = ⟨1, false, false, false, true⟩ ∧
      verifyAllRows_run env = ⟨1, false, false, false, true⟩ ∧
      verifyCompleteRedistribution_run env = ⟨1, false, false, false, true⟩ ∧
      verifyDropdowns_run env = ⟨1, false, false, false, true⟩) := by
  refine ⟨?_, ?_, ?_, ?_, ?_, ?_, ?_⟩
  · intro h hs
    simp [verifyFullyDynamic_run, h, hs]
  · intro h hs
    rw [Bool.and_eq_true] at hs
    simp [testDynamicDateChanges_run, h, hs.1, hs.2]
    exact ⟨by simpa using hs.1, by simpa using hs.2⟩
  · intro h hs
    constructor
    · simp [testAllDataRedistribution_run, h, hs]
      simpa using hs
    · simp [verifyCompleteRedistribution_run, h, hs]
      simpa using hs
  · intro h hs
    rw [Bool.and_eq_true] at hs
    simp [testFormulaStructure_run, h, hs.1, hs.2]
    exact ⟨by simpa using hs.1, by simpa using hs.2⟩
  · intro h hs
    rw [Bool.and_eq_true] at hs
    simp [verifyAllRows_run, h, hs.1, hs.2]
    exact ⟨by simpa using hs.1, by simpa using hs.2⟩
  · intro h hs
    rw [Bool.and_eq_true] at hs
    rw [Bool.and_eq_true] at hs
    obtain ⟨⟨h1, h2⟩, h4⟩ := hs
    rw [Bool.and_eq_true] at h1
    simp [verifyDropdowns_run, h, h1.1, h1.2, h2, h4]
    exact ⟨by simpa using h1.1, by simpa using h1.2, by simpa using h2,
      by simpa using h4⟩
  · intro h
    refine ⟨?_, ?_, ?_, ?_, ?_, ?_, ?_⟩ <;>
      simp [verifyFullyDynamic_run, testDynamicDateChanges_run,
        testAllDataRedistribution_run, testFormulaStructure_run, verifyAllRows_run,
        verifyCompleteRedistribution_run, verifyDropdowns_run, h]

/-- A produced-file workbook on which five of the six checks of
`verify_fully_dynamic.py` pass but the unitization-fee check fails
(`Inputs!B26` is empty). -/
def checkerScenarioWb : Workbook :=
  { sheetnames := ["XAUconfig", "Mine Inventory", "Resource Supply (5yr)", "Inputs"]
    cell := fun s c r =>
      if s = "XAUconfig" ∧ c = 2 ∧ r = 4 then Value.vstr "Dec '25"
      else if s = "Mine Inventory" ∧ c = 2 ∧ r = 2 then Value.vstr "Dec '25"
      else if s = "Mine Inventory" ∧ c = 41 ∧ r = 2 then Value.vstr (matchFormula 2)
      else if s = "Resource Supply (5yr)" ∧ c = 2 ∧ r = 3 then Value.vstr (countifFormula 0)
      else if s = "Resource Supply (5yr)" ∧ c = 2 ∧ r = 5 then Value.vstr (sumifFormula "M" 0)
      else Value.vnone
    maxCol := fun _ => 61
    maxRow := fun _ => 26
    dvRefs := [] }

/-- The environment for the checker counterexample. -/
def envChecker : Env := ⟨true, checkerScenarioWb, ⟨2025, 11, 27, 12, 0, 0⟩⟩

/-- Counterexample for C5 as stated: `verify_fully_dynamic.py` exits 0
although one of its checks fails, and `test_dynamic_date_changes.py`
writes an output file. -/
theorem c5_counterexample :
    (verifyFullyDynamic_run envChecker).exitCode = 0 ∧
    (verifyFullyDynamic_checks envChecker.input).all id = false ∧
    (testDynamicDateChanges_run envChecker).wroteOutput = true := by
  refine ⟨rfl, by rfl, rfl⟩

/-- Witness for C5's amended theorem at the concrete environments,
exercising every hypothesis. -/
theorem c5_witness :
    verifyFullyDynamic_run envChecker = ⟨0, false, false, false, false⟩ ∧
    testDynamicDateChanges_run envChecker = ⟨0, true, false, false, false⟩ ∧
    testAllDataRedistribution_run envChecker =
      ⟨if (testAllDataRedistribution_checks envChecker.input).all id then 0 else 1,
       false, false, false, false⟩ ∧
    testFormulaStructure_run envChecker =
      ⟨if (testFormulaStructure_checks envChecker.input).all id then 0 else 1,
       false, false, false, false⟩ ∧
    verifyAllRows_run envChecker =
      ⟨if (verifyAllRows_checks envChecker.input).all id then 0 else 1,
       false, false, false, false⟩ ∧
    verifyCompleteRedistribution_run envChecker =
      ⟨if (verifyCompleteRedistribution_checks envChecker.input).all id then 0 else 1,
       false, false, false, false⟩ ∧
    verifyDropdowns_run envChecker =
      ⟨if (verifyDropdowns_checks envChecker.input).all id then 0 else 1,
       false, false, false, false⟩ ∧
    verifyFullyDynamic_run envMissing = ⟨1, false, false, false, true⟩ :=
  ⟨(c5_checker_exit_behaviour envChecker).1 rfl (by rfl),
   (c5_checker_exit_behaviour envChecker).2.1 rfl (by rfl),
   ((c5_checker_exit_behaviour envChecker).2.2.1 rfl (by rfl)).1,
   (c5_checker_exit_behaviour envChecker).2.2.2.1 rfl (by rfl),
   (c5_checker_exit_behaviour envChecker).2.2.2.2.1 rfl (by rfl),
   ((c5_checker_exit_behaviour envChecker).2.2.1 rfl (by rfl)).2,
   (c5_checker_exit_behaviour envChecker).2.2.2.2.2.1 rfl (by rfl),
   ((c5_checker_exit_behaviour envMissing).2.2.2.2.2.2 rfl).1⟩

/-! ### Helper lemmas for the loop proofs -/

theorem mem_range'_iff (a n m : Nat) : m ∈ List.range' a n ↔ a ≤ m ∧ m < a + n := by
  rw [List.mem_range']
  constructor
  · rintro ⟨i, hi, rfl⟩
    omega
  · intro h
    exact ⟨m - a, by omega, by omega⟩

/-- A `setCells` block leaves every cell it does not list unchanged. -/
theorem setCells_cell_frame (wb : Workbook) (s : String) (writes : List (Nat × Nat × Value))
    (s0 : String) (c0 r0 : Nat)
    (h : ∀ t ∈ writes, s0 ≠ s ∨ c0 ≠ t.1 ∨ r0 ≠ t.2.1) :
    (setCells wb s writes).cell s0 c0 r0 = wb.cell s0 c0 r0 := by
  rw [setCells]
  apply foldl_cell_frame _ _ (fun _ => True) _ _ _ _ trivial (fun _ _ _ _ => trivial)
  intro w t ht _
  rw [cell_setCell, if_neg]
  rintro ⟨h1, h2, h3⟩
  rcases h t ht with h' | h' | h'
  · exact h' h1
  · exact h' h2
  · exact h' h3

/-- `update_sheet_headers` on a present sheet writes the header formula at
every column 2–61 of the requested row. -/
theorem update_sheet_headers_cell (wb : Workbook) (s : String) (row : Nat)
    (hs : wb.sheetnames.contains s = true) (c : Nat) (hc1 : 2 ≤ c) (hc2 : c ≤ 61) :
    (update_sheet_headers wb s row).cell s c row = Value.vstr (headerFormula c) := by
  rw [update_sheet_headers, if_pos hs]
  apply foldl_cell_write _ _ (fun _ => True) _ _ _ _ c _ trivial
    ((mem_range'_iff 2 60 c).mpr ⟨hc1, by omega⟩) (fun _ _ _ _ => trivial)
  · intro w _
    rw [cell_setCell, if_pos ⟨rfl, rfl, rfl⟩]
  · intro w k hk hne _
    rw [cell_setCell, if_neg]
    rintro ⟨-, h2, -⟩
    exact hne h2.symm

/-- `update_sheet_headers` touches no cell outside the requested sheet. -/
theorem update_sheet_headers_other (wb : Workbook) (s s0 : String) (row : Nat)
    (hne : s0 ≠ s) (c r : Nat) :
    (update_sheet_headers wb s row).cell s0 c r = wb.cell s0 c r := by
  rw [update_sheet_headers]
  split
  · apply foldl_cell_frame _ _ (fun _ => True) _ _ _ _ trivial (fun _ _ _ _ => trivial)
    intro w k _ _
    rw [cell_setCell, if_neg]
    rintro ⟨h1, -, -⟩
    exact hne h1
  · rfl

theorem update_sheet_headers_sheetnames (wb : Workbook) (s : String) (row : Nat) :
    (update_sheet_headers wb s row).sheetnames = wb.sheetnames := by
  rw [update_sheet_headers]
  split
  · exact foldl_preserve _ _ (fun w => w.sheetnames = wb.sheetnames) wb rfl
      (fun w k _ hw => by show (setCell w s k row _).sheetnames = _; rw [sheetnames_setCell, hw])
  · rfl

/-- The shared engine behind both header-update phases: a fold of
`update_sheet_headers` over a sheet list writes the header formula on
every listed sheet that is present and leaves absent listed sheets
untouched. -/
theorem header_fold_cell (sheets : List String) (wb : Workbook) (sheet : String)
    (hmem : sheet ∈ sheets) (c : Nat) (hc1 : 2 ≤ c) (hc2 : c ≤ 61) :
    (sheet ∈ wb.sheetnames →
      (sheets.foldl (fun w s => update_sheet_headers w s 1) wb).cell sheet c 1 =
        Value.vstr (headerFormula c)) ∧
    (sheet ∉ wb.sheetnames →
      ∀ c' r', (sheets.foldl (fun w s => update_sheet_headers w s 1) wb).cell sheet c' r' =
        wb.cell sheet c' r') := by
  constructor
  · intro hin
    apply foldl_cell_write _ _ (fun w => w.sheetnames = wb.sheetnames) _ _ _ _ sheet _ rfl hmem
      (fun w k _ hw => by rw [update_sheet_headers_sheetnames, hw])
    · intro w hw
      exact update_sheet_headers_cell w sheet 1
        (by rw [hw]; exact List.elem_eq_true_of_mem hin) c hc1 hc2
    · intro w k _ hne _
      exact update_sheet_headers_other w k sheet 1 (Ne.symm hne) c 1
  · intro hout c' r'
    apply foldl_cell_frame _ _ (fun w => w.sheetnames = wb.sheetnames) _ _ _ _ rfl
      (fun w k _ hw => by rw [update_sheet_headers_sheetnames, hw])
    intro w k _ hw
    by_cases hk : sheet = k
    · subst hk
      rw [update_sheet_headers, if_neg]
      rw [hw]
      intro hcont
      exact hout (List.mem_of_elem_eq_true hcont)
    · exact update_sheet_headers_other w k sheet 1 hk c' r'

/-! ### Claim C6 — header updates -/

/-- C6: for every sheet in the fixed update lists that exists in the
workbook and every column index 2–61, the header-update phases
(`update_all_sheet_headers` of fix_complete_financial_model.py and
`update_other_sheet_headers` of create_fully_dynamic_model.py) write
exactly `=XAUconfig!<letter>4` into the row-1 cell at that column, the
letter being computed from that same index; listed sheets missing from
the workbook are skipped without error, all their cells left unchanged. -/
theorem c6_header_update (wb : Workbook) (sheet : String) (c : Nat)
    (hc1 : 2 ≤ c) (hc2 : c ≤ 61) :
    (sheet ∈ sheets_to_update_complete → sheet ∈ wb.sheetnames →
      (update_all_sheet_headers wb).cell sheet c 1 = Value.vstr (headerFormula c)) ∧
    (sheet ∈ sheets_to_update_complete → sheet ∉ wb.sheetnames →
      ∀ c' r', (update_all_sheet_headers wb).cell sheet c' r' = wb.cell sheet c' r') ∧
    (sheet ∈ sheets_to_update_other → sheet ∈ wb.sheetnames →
      (update_other_sheet_headers wb).cell sheet c 1 = Value.vstr (headerFormula c)) ∧
    (sheet ∈ sheets_to_update_other → sheet ∉ wb.sheetnames →
      ∀ c' r', (update_other_sheet_headers wb).cell sheet c' r' = wb.cell sheet c' r') := by
  have hother : update_other_sheet_headers wb =
      sheets_to_update_other.foldl (fun w s => update_sheet_headers w s 1) wb := rfl
  refine ⟨?_, ?_, ?_, ?_⟩
  · intro hmem hin
    exact (header_fold_cell sheets_to_update_complete wb sheet hmem c hc1 hc2).1 hin
  · intro hmem hout
    exact (header_fold_cell sheets_to_update_complete wb sheet hmem c hc1 hc2).2 hout
  · intro hmem hin
    rw [hother]
    exact (header_fold_cell sheets_to_update_other wb sheet hmem c hc1 hc2).1 hin
  · intro hmem hout
    rw [hother]
    exact (header_fold_cell sheets_to_update_other wb sheet hmem c hc1 hc2).2 hout

/-- A workbook carrying every sheet of the update lists (no cells). -/
def allSheetsWb : Workbook :=
  { sheetnames := ["Inputs", "Mine Inventory", "XAUconfig", "Resource Supply (5yr)",
      "Token Supply (5yr)", "Token Demand (5yr)", "RA LLC Cashflow", "RAF Cashflow (5yr)",
      "RGT Cashflow (5yr)"]
    cell := fun _ _ _ => Value.vnone
    maxCol := fun _ => 0
    maxRow := fun _ => 0
    dvRefs := [] }

/-- Witness for C6 at column 2 of two concrete sheets. -/
theorem c6_witness :
    (update_all_sheet_headers allSheetsWb).cell "Resource Supply (5yr)" 2 1 =
      Value.vstr (headerFormula 2) ∧
    (update_other_sheet_headers allSheetsWb).cell "Token Supply (5yr)" 2 1 =
      Value.vstr (headerFormula 2) :=
  ⟨(c6_header_update allSheetsWb "Resource Supply (5yr)" 2 (by decide) (by decide)).1
      (by decide) (by decide),
   (c6_header_update allSheetsWb "Token Supply (5yr)" 2 (by decide) (by decide)).2.2.1
      (by decide) (by decide)⟩

/-! ### Claim C1 — month offsets embedded in COUNTIF/SUMIF formulas -/

/-- The COUNTIF/SUMIF block of `update_resource_supply_with_sumif`
writes, at every column 2–61, formulas embedding the offset
`column - 2`. -/
theorem sumif_fold_cell (wb : Workbook) (c : Nat) (hc1 : 2 ≤ c) (hc2 : c ≤ 61) :
    (((List.range' 2 60).foldl (fun w c' =>
      setCell (setCell w "Resource Supply (5yr)" c' 3 (Value.vstr (countifFormula (c' - 2))))
        "Resource Supply (5yr)" c' 5 (Value.vstr (sumifFormula "M" (c' - 2)))) wb).cell
      "Resource Supply (5yr)" c 3 = Value.vstr (countifFormula (c - 2))) ∧
    (((List.range' 2 60).foldl (fun w c' =>
      setCell (setCell w "Resource Supply (5yr)" c' 3 (Value.vstr (countifFormula (c' - 2))))
        "Resource Supply (5yr)" c' 5 (Value.vstr (sumifFormula "M" (c' - 2)))) wb).cell
      "Resource Supply (5yr)" c 5 = Value.vstr (sumifFormula "M" (c - 2))) := by
  have hmem : c ∈ List.range' 2 60 := (mem_range'_iff 2 60 c).mpr ⟨hc1, by omega⟩
  constructor
  · apply foldl_cell_write _ _ (fun _ => True) _ _ _ _ c _ trivial hmem
      (fun _ _ _ _ => trivial)
    · intro w _
      rw [cell_setCell, if_neg (by rintro ⟨-, -, h⟩; omega), cell_setCell,
        if_pos ⟨rfl, rfl, rfl⟩]
    · intro w k _ hne _
      rw [cell_setCell, if_neg (by rintro ⟨-, h, -⟩; exact hne h.symm),
        cell_setCell, if_neg (by rintro ⟨-, h, -⟩; exact hne h.symm)]
  · apply foldl_cell_write _ _ (fun _ => True) _ _ _ _ c _ trivial hmem
      (fun _ _ _ _ => trivial)
    · intro w _
      rw [cell_setCell, if_pos ⟨rfl, rfl, rfl⟩]
    · intro w k _ hne _
      rw [cell_setCell, if_neg (by rintro ⟨-, h, -⟩; exact hne h.symm),
        cell_setCell, if_neg (by rintro ⟨-, h, -⟩; exact hne h.symm)]

/-- The `direct_sum_rows` block of `update_resource_supply_complete`
writes the COUNTIF formula at row 3 and the column-M SUMIF at row 5. -/
theorem direct_sum_fold_cell (wb : Workbook) (c : Nat) (hc1 : 2 ≤ c) (hc2 : c ≤ 61)
    (row : Nat) (v : Value)
    (hrow : (row = 3 ∧ v = Value.vstr (countifFormula (c - 2))) ∨
      (row = 5 ∧ v = Value.vstr (sumifFormula "M" (c - 2)))) :
    ((List.range' 2 60).foldl (fun w c' =>
      direct_sum_rows.foldl (fun w' ri =>
        if ri.2.2.2 = "COUNT" then
          setCell w' "Resource Supply (5yr)" c' ri.1 (Value.vstr (countifFormula (c' - 2)))
        else
          setCell w' "Resource Supply (5yr)" c' ri.1
            (Value.vstr (sumifFormula (optColStr ri.2.1) (c' - 2)))) w) wb).cell
      "Resource Supply (5yr)" c row = v := by
  have hmem : c ∈ List.range' 2 60 := (mem_range'_iff 2 60 c).mpr ⟨hc1, by omega⟩
  apply foldl_cell_write _ _ (fun _ => True) _ _ _ _ c _ trivial hmem
    (fun _ _ _ _ => trivial)
  · intro w _
    rcases hrow with ⟨hr, hv⟩ | ⟨hr, hv⟩ <;> subst hr <;> subst hv <;>
      simp [direct_sum_rows, optColStr, cell_setCell]
  · intro w k _ hne _
    have hck : ¬(c = k) := fun h' => hne h'.symm
    simp [direct_sum_rows, optColStr, cell_setCell, hck]

/-- C1: for every column index 2–61, the COUNTIF and SUMIF formula
strings that `update_resource_supply_with_sumif`
(create_fully_dynamic_model.py and
create_dynamic_model_with_dropdowns.py) and
`update_resource_supply_complete` (create_complete_dynamic_model.py)
write into rows 3 and 5 of `Resource Supply (5yr)` embed the month
offset as the decimal literal `column - 2`, so the embedded offsets run
over 0–59 in column order. -/
theorem c1_offset_literal (wb : Workbook) (c : Nat) (hc1 : 2 ≤ c) (hc2 : c ≤ 61) :
    (∀ wb', update_resource_supply_with_sumif wb = some wb' →
      wb'.cell "Resource Supply (5yr)" c 3 = Value.vstr (countifFormula (c - 2)) ∧
      wb'.cell "Resource Supply (5yr)" c 5 = Value.vstr (sumifFormula "M" (c - 2))) ∧
    (∀ wb', update_resource_supply_complete wb = some wb' →
      wb'.cell "Resource Supply (5yr)" c 3 = Value.vstr (countifFormula (c - 2)) ∧
      wb'.cell "Resource Supply (5yr)" c 5 = Value.vstr (sumifFormula "M" (c - 2))) := by
  constructor
  · intro wb' h
    rw [update_resource_supply_with_sumif] at h
    split at h
    · rw [Option.some.injEq] at h
      subst h
      exact ⟨(sumif_fold_cell _ c hc1 hc2).1, (sumif_fold_cell _ c hc1 hc2).2⟩
    · cases h
  · intro wb' h
    rw [update_resource_supply_complete] at h
    split at h
    · rw [Option.some.injEq] at h
      subst h
      have hann : ∀ (w : Workbook) (row : Nat), row < 42 →
          (annual_columns.foldl (fun w' yc =>
            setCells w' "Resource Supply (5yr)" (annualWrites yc.1 yc.2.1 yc.2.2)) w).cell
            "Resource Supply (5yr)" c row = w.cell "Resource Supply (5yr)" c row := by
        intro w row hrow
        apply foldl_cell_frame _ _ (fun _ => True) _ _ _ _ trivial (fun _ _ _ _ => trivial)
        intro w' yc hyc _
        apply setCells_cell_frame
        intro t ht
        rw [annualWrites] at ht
        fin_cases ht <;> right <;> right <;> dsimp only <;> omega
      have hcum : ∀ (w : Workbook) (row : Nat), row < 30 →
          ((List.range' 2 60).foldl (fun w' c' =>
            setCells w' "Resource Supply (5yr)" (completeCumulativeWrites c')) w).cell
            "Resource Supply (5yr)" c row = w.cell "Resource Supply (5yr)" c row := by
        intro w row hrow
        apply foldl_cell_frame _ _ (fun _ => True) _ _ _ _ trivial (fun _ _ _ _ => trivial)
        intro w' k _ _
        apply setCells_cell_frame
        intro t ht
        rw [completeCumulativeWrites] at ht
        fin_cases ht <;> right <;> right <;> dsimp only <;> omega
      have hdol : ∀ (w : Workbook) (row : Nat), row < 18 →
          ((List.range' 2 60).foldl (fun w' c' =>
            setCells w' "Resource Supply (5yr)" (completeDollarWrites c')) w).cell
            "Resource Supply (5yr)" c row = w.cell "Resource Supply (5yr)" c row := by
        intro w row hrow
        apply foldl_cell_frame _ _ (fun _ => True) _ _ _ _ trivial (fun _ _ _ _ => trivial)
        intro w' k _ _
        apply setCells_cell_frame
        intro t ht
        rw [completeDollarWrites] at ht
        fin_cases ht <;> right <;> right <;> dsimp only <;> omega
      have hcalc : ∀ (w : Workbook) (row : Nat), row < 8 →
          ((List.range' 2 60).foldl (fun w' c' =>
            setCells w' "Resource Supply (5yr)" (completeCalcWrites c')) w).cell
            "Resource Supply (5yr)" c row = w.cell "Resource Supply (5yr)" c row := by
        intro w row hrow
        apply foldl_cell_frame _ _ (fun _ => True) _ _ _ _ trivial (fun _ _ _ _ => trivial)
        intro w' k _ _
        apply setCells_cell_frame
        intro t ht
        rw [completeCalcWrites] at ht
        fin_cases ht <;> right <;> right <;> dsimp only <;> omega
      have hlab : ∀ (w : Workbook) (writes : List (Nat × Nat × Value)) (row : Nat),
          (∀ t ∈ writes, t.1 = 1) → 2 ≤ c →
          (setCells w "Resource Supply (5yr)" writes).cell "Resource Supply (5yr)" c row =
            w.cell "Resource Supply (5yr)" c row := by
        intro w writes row hcol hc
        apply setCells_cell_frame
        intro t ht
        right; left
        rw [hcol t ht]
        omega
      constructor
      · rw [hann _ 3 (by omega), hlab _ _ 3 (by intro t ht; fin_cases ht <;> rfl) hc1,
          hcum _ 3 (by omega), hlab _ _ 3 (by intro t ht; fin_cases ht <;> rfl) hc1,
          hdol _ 3 (by omega), hlab _ _ 3 (by intro t ht; fin_cases ht <;> rfl) hc1,
          hcalc _ 3 (by omega)]
        exact direct_sum_fold_cell _ c hc1 hc2 3 _ (Or.inl ⟨rfl, rfl⟩)
      · rw [hann _ 5 (by omega), hlab _ _ 5 (by intro t ht; fin_cases ht <;> rfl) hc1,
          hcum _ 5 (by omega), hlab _ _ 5 (by intro t ht; fin_cases ht <;> rfl) hc1,
          hdol _ 5 (by omega), hlab _ _ 5 (by intro t ht; fin_cases ht <;> rfl) hc1,
          hcalc _ 5 (by omega)]
        exact direct_sum_fold_cell _ c hc1 hc2 5 _ (Or.inr ⟨rfl, rfl⟩)
    · cases h

/-- The workbook `update_resource_supply_with_sumif` produces from
`allSheetsWb`. -/
def rsOut : Workbook := (update_resource_supply_with_sumif allSheetsWb).getD emptyWorkbook

/-- The workbook `update_resource_supply_complete` produces from
`allSheetsWb`. -/
def rsCompleteOut : Workbook :=
  (update_resource_supply_complete allSheetsWb).getD emptyWorkbook

theorem rsOut_eq : update_resource_supply_with_sumif allSheetsWb = some rsOut := by
  have h : allSheetsWb.sheetnames.contains "Resource Supply (5yr)" = true := by decide
  rw [rsOut, update_resource_supply_with_sumif, if_pos h, Option.getD_some]

theorem rsCompleteOut_eq :
    update_resource_supply_complete allSheetsWb = some rsCompleteOut := by
  have h : allSheetsWb.sheetnames.contains "Resource Supply (5yr)" = true := by decide
  rw [rsCompleteOut, update_resource_supply_complete, if_pos h, Option.getD_some]

/-- Witness for C1 at column 2 (offset literal 0). -/
theorem c1_witness :
    rsOut.cell "Resource Supply (5yr)" 2 3 = Value.vstr (countifFormula (2 - 2)) ∧
    rsCompleteOut.cell "Resource Supply (5yr)" 2 5 = Value.vstr (sumifFormula "M" (2 - 2)) :=
  ⟨((c1_offset_literal allSheetsWb 2 (by decide) (by decide)).1 rsOut rsOut_eq).1,
   ((c1_offset_literal allSheetsWb 2 (by decide) (by decide)).2 rsCompleteOut rsCompleteOut_eq).2⟩

/-! ### Claim C7 — the 60-month timeline -/

/-- C7: each timeline-rebuild phase writes, for every month offset
`k < 60`, the label of its start month plus `k` calendar months (format
`%b '%y`) into row 4 of `XAUconfig` at column `k+2`:
`rebuild_xauconfig_timeline` and `create_xauconfig_timeline` start at
Dec 2025, `create_timeline_from_jan_2025` starts at Jan 2025.  The month
number row that `rebuild_xauconfig_timeline` writes (row 5) holds the
integer `k` at the same column.  The two rebuilding phases write exactly
60 labels: on a well-formed workbook every row-4 cell beyond column 61
is empty afterwards. -/
theorem c7_timeline_labels (wb : Workbook) (hwf : wb.wf) (k : Nat) (hk : k < 60) :
    ((rebuild_xauconfig_timeline wb).cell "XAUconfig" (k + 2) 4 =
        Value.vstr (monthLabelFrom 2025 12 k) ∧
      (rebuild_xauconfig_timeline wb).cell "XAUconfig" (k + 2) 5 = Value.vnum k) ∧
    (create_xauconfig_timeline wb).cell "XAUconfig" (k + 2) 4 =
      Value.vstr (monthLabelFrom 2025 12 k) ∧
    (∀ wb', create_timeline_from_jan_2025 wb = some wb' →
      wb'.cell "XAUconfig" (k + 2) 4 = Value.vstr (monthLabelFrom 2025 1 k)) ∧
    (∀ c, 62 ≤ c →
      (rebuild_xauconfig_timeline wb).cell "XAUconfig" c 4 = Value.vnone ∧
      (create_xauconfig_timeline wb).cell "XAUconfig" c 4 = Value.vnone) := by
  have hmem : k ∈ List.range 60 := List.mem_range.mpr hk
  refine ⟨⟨?_, ?_⟩, ?_, ?_, ?_⟩
  · rw [rebuild_xauconfig_timeline]
    apply foldl_cell_write _ _ (fun _ => True) _ _ _ _ k _ trivial hmem
      (fun _ _ _ _ => trivial)
    · intro w _
      simp [cell_setCell]
    · intro w k' _ hne _
      have h2 : ¬(k = k') := fun h' => hne h'.symm
      simp [cell_setCell, h2]
  · rw [rebuild_xauconfig_timeline]
    apply foldl_cell_write _ _ (fun _ => True) _ _ _ _ k _ trivial hmem
      (fun _ _ _ _ => trivial)
    · intro w _
      simp [cell_setCell]
    · intro w k' _ hne _
      have h2 : ¬(k = k') := fun h' => hne h'.symm
      simp [cell_setCell, h2]
  · rw [create_xauconfig_timeline]
    apply foldl_cell_write _ _ (fun _ => True) _ _ _ _ k _ trivial hmem
      (fun _ _ _ _ => trivial)
    · intro w _
      simp [cell_setCell]
    · intro w k' _ hne _
      have h2 : ¬(k = k') := fun h' => hne h'.symm
      simp [cell_setCell, h2]
  · intro wb' h
    rw [create_timeline_from_jan_2025] at h
    split at h
    · rw [Option.some.injEq] at h
      subst h
      apply foldl_cell_write _ _ (fun _ => True) _ _ _ _ k _ trivial hmem
        (fun _ _ _ _ => trivial)
      · intro w _
        simp [cell_setCell]
      · intro w k' _ hne _
        have h2 : ¬(k = k') := fun h' => hne h'.symm
        simp [cell_setCell, h2]
    · cases h
  · intro c hc
    constructor
    · rw [rebuild_xauconfig_timeline]
      have hfr : ∀ (w : Workbook) (k' : Nat), k' ∈ List.range 60 →
          (∀ w' : Workbook, True) → True := fun _ _ _ _ => trivial
      rw [foldl_cell_frame _ _ (fun _ => True) "XAUconfig" c 4 _ trivial
        (fun _ _ _ _ => trivial) ?_]
      · rw [setCells_cell_frame _ _ _ _ _ _ ?_]
        · simp [clearSheet]
        · intro t ht
          fin_cases ht <;> right <;> left <;> dsimp only <;> omega
      · intro w k' hk' _
        have hk'60 : k' < 60 := List.mem_range.mp hk'
        have h2 : ¬(c = k' + 2) := by omega
        simp [cell_setCell, h2]
    · rw [create_xauconfig_timeline]
      rw [foldl_cell_frame _ _ (fun _ => True) "XAUconfig" c 4 _ trivial
        (fun _ _ _ _ => trivial) ?_]
      · rw [setCells_cell_frame _ _ _ _ _ _ ?_]
        · split
          · simp [createSheet, deleteSheet]
          · rename_i hnot
            rw [show (createSheet wb "XAUconfig").cell "XAUconfig" c 4 =
              wb.cell "XAUconfig" c 4 from rfl]
            apply hwf
            left
            intro hmem'
            exact hnot (List.elem_eq_true_of_mem hmem')
        · intro t ht
          fin_cases ht <;> right <;> left <;> dsimp only <;> omega
      · intro w k' hk' _
        have hk'60 : k' < 60 := List.mem_range.mp hk'
        have h2 : ¬(c = k' + 2) := by omega
        simp [cell_setCell, h2]

/-- A workbook holding just an empty `XAUconfig` sheet. -/
def xauOnlyWb : Workbook :=
  { sheetnames := ["XAUconfig"]
    cell := fun _ _ _ => Value.vnone
    maxCol := fun _ => 0
    maxRow := fun _ => 0
    dvRefs := [] }

theorem xauOnlyWb_wf : xauOnlyWb.wf := fun _ _ _ _ => rfl

/-- The workbook `create_timeline_from_jan_2025` produces from
`xauOnlyWb`. -/
def janTimelineOut : Workbook :=
  (create_timeline_from_jan_2025 xauOnlyWb).getD emptyWorkbook

theorem janTimelineOut_eq :
    create_timeline_from_jan_2025 xauOnlyWb = some janTimelineOut := by
  have h : xauOnlyWb.sheetnames.contains "XAUconfig" = true := by decide
  rw [janTimelineOut, create_timeline_from_jan_2025, if_pos h, Option.getD_some]

set_option maxRecDepth 4096 in
/-- Witness for C7 at offset 0 and at a column beyond the 60 months. -/
theorem c7_witness :
    (rebuild_xauconfig_timeline xauOnlyWb).cell "XAUconfig" 2 4 =
      Value.vstr (monthLabelFrom 2025 12 0) ∧
    (rebuild_xauconfig_timeline xauOnlyWb).cell "XAUconfig" 2 5 = Value.vnum 0 ∧
    janTimelineOut.cell "XAUconfig" 2 4 = Value.vstr (monthLabelFrom 2025 1 0) ∧
    (create_xauconfig_timeline xauOnlyWb).cell "XAUconfig" 62 4 = Value.vnone :=
  ⟨((c7_timeline_labels xauOnlyWb xauOnlyWb_wf 0 (by decide)).1).1,
   ((c7_timeline_labels xauOnlyWb xauOnlyWb_wf 0 (by decide)).1).2,
   (c7_timeline_labels xauOnlyWb xauOnlyWb_wf 0 (by decide)).2.2.1 janTimelineOut janTimelineOut_eq,
   ((c7_timeline_labels xauOnlyWb xauOnlyWb_wf 0 (by decide)).2.2.2 62 (by decide)).2⟩


/-! ### Claim C9 — per-mine offset rows -/

/-- The dropdown/offset loop appends exactly one validation reference per
non-skipped row, in row order. -/
theorem dropdown_fold_dvRefs (wb : Workbook) : ∀ (l : List Nat) (w : Workbook),
    (∀ r', w.cell "Mine Inventory" 1 r' = wb.cell "Mine Inventory" 1 r') →
    (l.foldl (fun w' row =>
      if isFalsy (w'.cell "Mine Inventory" 1 row) ||
          strContains (pyStr (w'.cell "Mine Inventory" 1 row)) "Total" then w'
      else
        setCell (addDvRef w' "Mine Inventory" ("B" ++ natToDec row))
          "Mine Inventory" 41 row (Value.vstr (matchFormula row))) w).dvRefs =
    w.dvRefs ++ (l.filter (fun r' => !(isFalsy (wb.cell "Mine Inventory" 1 r') ||
        strContains (pyStr (wb.cell "Mine Inventory" 1 r')) "Total"))).map
      (fun r' => ("Mine Inventory", "B" ++ natToDec r')) := by
  intro l
  induction l with
  | nil => intro w _; simp
  | cons a t ih =>
    intro w hA
    simp only [List.foldl_cons, List.filter_cons]
    rw [hA a]
    by_cases hs : (isFalsy (wb.cell "Mine Inventory" 1 a) ||
        strContains (pyStr (wb.cell "Mine Inventory" 1 a)) "Total") = true
    · rw [if_pos hs, ih w hA, hs]
      simp
    · rw [Bool.not_eq_true] at hs
      rw [hs, if_neg (by simp)]
      have hA' : ∀ r', (setCell (addDvRef w "Mine Inventory" ("B" ++ natToDec a))
          "Mine Inventory" 41 a (Value.vstr (matchFormula a))).cell "Mine Inventory" 1 r' =
          wb.cell "Mine Inventory" 1 r' := by
        intro r'
        rw [cell_setCell, if_neg (by rintro ⟨-, h41, -⟩; omega)]
        exact hA r'
      rw [ih _ hA']
      simp [addDvRef, dvRefs_setCell]

/-- Single-cell behaviour of the plain offset loop of
`add_dynamic_offset_column`. -/
theorem offset_fold_cell (wb : Workbook) (start : Workbook) (row : Nat)
    (h2 : 2 ≤ row) (h13 : row ≤ 13)
    (hA : ∀ r', start.cell "Mine Inventory" 1 r' = wb.cell "Mine Inventory" 1 r') :
    ((isFalsy (wb.cell "Mine Inventory" 1 row) ||
        strContains (pyStr (wb.cell "Mine Inventory" 1 row)) "Total") = true →
      ((List.range' 2 12).foldl (fun w row' =>
        if isFalsy (w.cell "Mine Inventory" 1 row') ||
            strContains (pyStr (w.cell "Mine Inventory" 1 row')) "Total" then w
        else setCell w "Mine Inventory" 41 row' (Value.vstr (matchFormula row'))) start).cell
        "Mine Inventory" 41 row = start.cell "Mine Inventory" 41 row) ∧
    ((isFalsy (wb.cell "Mine Inventory" 1 row) ||
        strContains (pyStr (wb.cell "Mine Inventory" 1 row)) "Total") = false →
      ((List.range' 2 12).foldl (fun w row' =>
        if isFalsy (w.cell "Mine Inventory" 1 row') ||
            strContains (pyStr (w.cell "Mine Inventory" 1 row')) "Total" then w
        else setCell w "Mine Inventory" 41 row' (Value.vstr (matchFormula row'))) start).cell
        "Mine Inventory" 41 row = Value.vstr (matchFormula row)) := by
  have hmem : row ∈ List.range' 2 12 := (mem_range'_iff 2 12 row).mpr ⟨h2, by omega⟩
  constructor
  · intro hs
    apply foldl_cell_frame _ _
      (fun w => ∀ r', w.cell "Mine Inventory" 1 r' = wb.cell "Mine Inventory" 1 r')
      _ _ _ _ hA
    · intro w k _ hw r'
      split
      · exact hw r'
      · rw [cell_setCell, if_neg (by rintro ⟨-, h41, -⟩; omega)]
        exact hw r'
    · intro w k _ hw
      by_cases hk : k = row
      · subst hk
        rw [hw k, if_pos hs]
      · split
        · rfl
        · rw [cell_setCell, if_neg (by rintro ⟨-, -, hr⟩; exact hk hr.symm)]
  · intro hs
    apply foldl_cell_write _ _
      (fun w => ∀ r', w.cell "Mine Inventory" 1 r' = wb.cell "Mine Inventory" 1 r')
      _ _ _ _ row _ hA hmem
    · intro w k _ hw r'
      split
      · exact hw r'
      · rw [cell_setCell, if_neg (by rintro ⟨-, h41, -⟩; omega)]
        exact hw r'
    · intro w hw
      rw [hw row, hs, if_neg (by simp)]
      rw [cell_setCell, if_pos ⟨rfl, rfl, rfl⟩]
    · intro w k _ hne hw
      split
      · rfl
      · rw [cell_setCell, if_neg (by rintro ⟨-, -, hr⟩; exact hne hr.symm)]

/-- Single-cell behaviour of the dropdown-attaching offset loop of
`setup_mine_inventory_with_dropdowns`. -/
theorem dropdown_fold_cell (wb : Workbook) (start : Workbook) (row : Nat)
    (h2 : 2 ≤ row) (h13 : row ≤ 13)
    (hA : ∀ r', start.cell "Mine Inventory" 1 r' = wb.cell "Mine Inventory" 1 r') :
    ((isFalsy (wb.cell "Mine Inventory" 1 row) ||
        strContains (pyStr (wb.cell "Mine Inventory" 1 row)) "Total") = true →
      ((List.range' 2 12).foldl (fun w row' =>
        if isFalsy (w.cell "Mine Inventory" 1 row') ||
            strContains (pyStr (w.cell "Mine Inventory" 1 row')) "Total" then w
        else
          setCell (addDvRef w "Mine Inventory" ("B" ++ natToDec row'))
            "Mine Inventory" 41 row' (Value.vstr (matchFormula row'))) start).cell
        "Mine Inventory" 41 row = start.cell "Mine Inventory" 41 row) ∧
    ((isFalsy (wb.cell "Mine Inventory" 1 row) ||
        strContains (pyStr (wb.cell "Mine Inventory" 1 row)) "Total") = false →
      ((List.range' 2 12).foldl (fun w row' =>
        if isFalsy (w.cell "Mine Inventory" 1 row') ||
            strContains (pyStr (w.cell "Mine Inventory" 1 row')) "Total" then w
        else
          setCell (addDvRef w "Mine Inventory" ("B" ++ natToDec row'))
            "Mine Inventory" 41 row' (Value.vstr (matchFormula row'))) start).cell
        "Mine Inventory" 41 row = Value.vstr (matchFormula row)) := by
  have hmem : row ∈ List.range' 2 12 := (mem_range'_iff 2 12 row).mpr ⟨h2, by omega⟩
  constructor
  · intro hs
    apply foldl_cell_frame _ _
      (fun w => ∀ r', w.cell "Mine Inventory" 1 r' = wb.cell "Mine Inventory" 1 r')
      _ _ _ _ hA
    · intro w k _ hw r'
      split
      · exact hw r'
      · rw [cell_setCell, if_neg (by rintro ⟨-, h41, -⟩; omega)]
        exact hw r'
    · intro w k _ hw
      by_cases hk : k = row
      · subst hk
        rw [hw k, if_pos hs]
      · split
        · rfl
        · rw [cell_setCell, if_neg (by rintro ⟨-, -, hr⟩; exact hk hr.symm)]
          rfl
  · intro hs
    apply foldl_cell_write _ _
      (fun w => ∀ r', w.cell "Mine Inventory" 1 r' = wb.cell "Mine Inventory" 1 r')
      _ _ _ _ row _ hA hmem
    · intro w k _ hw r'
      split
      · exact hw r'
      · rw [cell_setCell, if_neg (by rintro ⟨-, h41, -⟩; omega)]
        exact hw r'
    · intro w hw
      rw [hw row, hs, if_neg (by simp)]
      rw [cell_setCell, if_pos ⟨rfl, rfl, rfl⟩]
    · intro w k _ hne hw
      split
      · rfl
      · rw [cell_setCell, if_neg (by rintro ⟨-, -, hr⟩; exact hne hr.symm)]
        rfl

/-- C9: for every row 2–13 of `Mine Inventory`, the offset/dropdown phases
(`add_dynamic_offset_column` of create_fully_dynamic_model.py and
`setup_mine_inventory_with_dropdowns` of
create_dynamic_model_with_dropdowns.py) skip the row — leaving its column
AO cell unchanged — exactly when the row's column-A value is empty
(Python-falsy) or its string form contains `Total`; every other row in
the range receives exactly `=IFERROR(MATCH(B<row>,XAUconfig!$B$4:$BI$4,0)-1,"")`
in column AO, and the dropdown phase attaches its validation rule to
`B<row>` of exactly the non-skipped rows. -/
theorem c9_offset_rows (wb : Workbook) (row : Nat) (h2 : 2 ≤ row) (h13 : row ≤ 13) :
    (∀ wb', add_dynamic_offset_column wb = some wb' →
      ((isFalsy (wb.cell "Mine Inventory" 1 row) ||
          strContains (pyStr (wb.cell "Mine Inventory" 1 row)) "Total") = true →
        wb'.cell "Mine Inventory" 41 row = wb.cell "Mine Inventory" 41 row) ∧
      ((isFalsy (wb.cell "Mine Inventory" 1 row) ||
          strContains (pyStr (wb.cell "Mine Inventory" 1 row)) "Total") = false →
        wb'.cell "Mine Inventory" 41 row = Value.vstr (matchFormula row))) ∧
    (∀ wb', setup_mine_inventory_with_dropdowns wb = some wb' →
      (((isFalsy (wb.cell "Mine Inventory" 1 row) ||
          strContains (pyStr (wb.cell "Mine Inventory" 1 row)) "Total") = true →
        wb'.cell "Mine Inventory" 41 row = wb.cell "Mine Inventory" 41 row) ∧
       ((isFalsy (wb.cell "Mine Inventory" 1 row) ||
          strContains (pyStr (wb.cell "Mine Inventory" 1 row)) "Total") = false →
        wb'.cell "Mine Inventory" 41 row = Value.vstr (matchFormula row))) ∧
      wb'.dvRefs = wb.dvRefs ++
        ((List.range' 2 12).filter (fun r' => !(isFalsy (wb.cell "Mine Inventory" 1 r') ||
          strContains (pyStr (wb.cell "Mine Inventory" 1 r')) "Total"))).map
            (fun r' => ("Mine Inventory", "B" ++ natToDec r'))) := by
  constructor
  · intro wb' h
    rw [add_dynamic_offset_column] at h
    split at h
    · rw [Option.some.injEq] at h
      subst h
      have hA : ∀ r', (setCell wb "Mine Inventory" 41 1
          (Value.vstr "Month Offset (Dynamic)")).cell "Mine Inventory" 1 r' =
          wb.cell "Mine Inventory" 1 r' := by
        intro r'
        rw [cell_setCell, if_neg (by rintro ⟨-, h41, -⟩; omega)]
      have hstart : (setCell wb "Mine Inventory" 41 1
          (Value.vstr "Month Offset (Dynamic)")).cell "Mine Inventory" 41 row =
          wb.cell "Mine Inventory" 41 row := by
        rw [cell_setCell, if_neg (by rintro ⟨-, -, h1⟩; omega)]
      refine ⟨fun hs => ?_, fun hs => ?_⟩
      · rw [(offset_fold_cell wb _ row h2 h13 hA).1 hs, hstart]
      · exact (offset_fold_cell wb _ row h2 h13 hA).2 hs
    · cases h
  · intro wb' h
    rw [setup_mine_inventory_with_dropdowns] at h
    split at h
    · rw [Option.some.injEq] at h
      subst h
      have hA : ∀ r', (setCell (setCell (setCell wb "Mine Inventory" 2 2 (Value.vstr "Dec '25"))
          "Mine Inventory" 2 3 (Value.vstr "Jan '26")) "Mine Inventory" 41 1
          (Value.vstr "Month Offset (Dynamic)")).cell "Mine Inventory" 1 r' =
          wb.cell "Mine Inventory" 1 r' := by
        intro r'
        rw [cell_setCell, if_neg (by rintro ⟨-, h41, -⟩; omega),
          cell_setCell, if_neg (by rintro ⟨-, hc2, -⟩; omega),
          cell_setCell, if_neg (by rintro ⟨-, hc2, -⟩; omega)]
      have hstart : (setCell (setCell (setCell wb "Mine Inventory" 2 2 (Value.vstr "Dec '25"))
          "Mine Inventory" 2 3 (Value.vstr "Jan '26")) "Mine Inventory" 41 1
          (Value.vstr "Month Offset (Dynamic)")).cell "Mine Inventory" 41 row =
          wb.cell "Mine Inventory" 41 row := by
        rw [cell_setCell, if_neg (by rintro ⟨-, -, h1⟩; omega),
          cell_setCell, if_neg (by rintro ⟨-, hc2, -⟩; omega),
          cell_setCell, if_neg (by rintro ⟨-, hc2, -⟩; omega)]
      refine ⟨⟨fun hs => ?_, fun hs => ?_⟩, ?_⟩
      · rw [(dropdown_fold_cell wb _ row h2 h13 hA).1 hs, hstart]
      · exact (dropdown_fold_cell wb _ row h2 h13 hA).2 hs
      · rw [dropdown_fold_dvRefs wb _ _ hA]
        rfl
    · cases h

/-- A Mine Inventory workbook with one named mine in row 2 (row 3 blank). -/
def wbMine : Workbook :=
  { sheetnames := ["Mine Inventory"]
    cell := fun s c r =>
      if s = "Mine Inventory" ∧ c = 1 ∧ r = 2 then Value.vstr "Courbet" else Value.vnone
    maxCol := fun _ => 41
    maxRow := fun _ => 13
    dvRefs := [] }

/-- The workbook `add_dynamic_offset_column` produces from `wbMine`. -/
def offsetColOut : Workbook := (add_dynamic_offset_column wbMine).getD emptyWorkbook

theorem offsetColOut_eq : add_dynamic_offset_column wbMine = some offsetColOut := by
  have h : wbMine.sheetnames.contains "Mine Inventory" = true := by decide
  rw [offsetColOut, add_dynamic_offset_column, if_pos h, Option.getD_some]

/-- The workbook `setup_mine_inventory_with_dropdowns` produces from
`wbMine`. -/
def ddSetupOut : Workbook :=
  (setup_mine_inventory_with_dropdowns wbMine).getD emptyWorkbook

theorem ddSetupOut_eq : setup_mine_inventory_with_dropdowns wbMine = some ddSetupOut := by
  have h : wbMine.sheetnames.contains "Mine Inventory" = true := by decide
  rw [ddSetupOut, setup_mine_inventory_with_dropdowns, if_pos h, Option.getD_some]

/-- Witness for C9: row 2 (a named mine) gets the MATCH formula, row 3
(blank name) is skipped. -/
theorem c9_witness :
    offsetColOut.cell "Mine Inventory" 41 2 = Value.vstr (matchFormula 2) ∧
    ddSetupOut.cell "Mine Inventory" 41 3 = wbMine.cell "Mine Inventory" 41 3 :=
  ⟨((c9_offset_rows wbMine 2 (by decide) (by decide)).1 offsetColOut offsetColOut_eq).2
      (by decide),
   (((c9_offset_rows wbMine 3 (by decide) (by decide)).2 ddSetupOut ddSetupOut_eq).1).1
      (by decide)⟩

/-! ### Claim C10 — clearing #REF! errors -/

/-- Final cell contents of the clearing loop: cleared cells are empty,
all others unchanged. -/
theorem clear_fold_cell (s : String) : ∀ (l : List (Nat × Nat)) (w : Workbook) (c r : Nat),
    ((l.foldl (fun w' cr => setCell w' s cr.1 cr.2 Value.vnone) w).cell s c r) =
      if (c, r) ∈ l then Value.vnone else w.cell s c r := by
  intro l
  induction l with
  | nil => intro w c r; simp
  | cons a t ih =>
    intro w c r
    rw [List.foldl_cons, ih]
    by_cases ht : (c, r) ∈ t
    · rw [if_pos ht, if_pos (List.mem_cons_of_mem a ht)]
    · rw [if_neg ht]
      by_cases ha : (c, r) = a
      · rw [if_pos (by rw [ha]; exact List.mem_cons_self a t), cell_setCell,
          if_pos ⟨rfl, congrArg Prod.fst ha, congrArg Prod.snd ha⟩]
      · rw [if_neg (fun hmem => (List.mem_cons.mp hmem).elim ha ht), cell_setCell,
          if_neg (by rintro ⟨-, hc, hr⟩; exact ha (Prod.ext hc hr))]

/-- What the per-cell step of the `#REF!` scan returns. -/
theorem analyze_step_eq_some (v : Value) (c' r' c r : Nat) :
    refErrorStep v c' r' = some (c, r) ↔
      c' = c ∧ r' = r ∧ isRefError v = true := by
  rcases v with _ | sv | q | ⟨y, m⟩ | g <;>
    simp [refErrorStep, isRefError, Option.ite_none_right_eq_some, Prod.ext_iff,
      decide_eq_true_iff] <;>
    tauto

/-- Membership in the `analyze_formula_errors` scan: exactly the in-grid
cells whose value is a truthy string containing `#REF!`. -/
theorem mem_analyze_formula_errors (wb : Workbook) (sheet : String) (c r : Nat) :
    (c, r) ∈ analyze_formula_errors wb sheet ↔
      1 ≤ c ∧ c ≤ wb.maxCol sheet ∧ 1 ≤ r ∧ r ≤ wb.maxRow sheet ∧
        isRefError (wb.cell sheet c r) = true := by
  rw [analyze_formula_errors, List.mem_flatMap]
  constructor
  · rintro ⟨r', hr', hmem⟩
    rw [List.mem_filterMap] at hmem
    obtain ⟨c', hc', heq⟩ := hmem
    rw [analyze_step_eq_some] at heq
    obtain ⟨rfl, rfl, h5⟩ := heq
    rw [mem_range'_iff] at hr' hc'
    exact ⟨hc'.1, by omega, hr'.1, by omega, h5⟩
  · rintro ⟨h1, h2, h3, h4, h5⟩
    refine ⟨r, (mem_range'_iff 1 (wb.maxRow sheet) r).mpr ⟨h3, by omega⟩, ?_⟩
    rw [List.mem_filterMap]
    exact ⟨c, (mem_range'_iff 1 (wb.maxCol sheet) c).mpr ⟨h1, by omega⟩,
      (analyze_step_eq_some _ c r c r).mpr ⟨rfl, rfl, h5⟩⟩

/-- C10: after `fix_ref_errors` runs on a well-formed workbook, no cell
of `Mine Inventory` qualifies as a `#REF!` error any more, every cell
that did qualify beforehand has been cleared to `None`, and the returned
count equals the number of error cells the scan found beforehand. -/
theorem c10_ref_clearing (wb : Workbook) (hwf : wb.wf) (wb' : Workbook) (n : Nat)
    (h : fix_ref_errors wb = some (wb', n)) :
    (∀ c r, isRefError (wb'.cell "Mine Inventory" c r) = false) ∧
    (∀ c r, isRefError (wb.cell "Mine Inventory" c r) = true →
      wb'.cell "Mine Inventory" c r = Value.vnone) ∧
    n = (analyze_formula_errors wb "Mine Inventory").length := by
  rw [fix_ref_errors] at h
  split at h
  · rw [Option.some.injEq] at h
    have hwb' : wb' = (analyze_formula_errors wb "Mine Inventory").foldl
        (fun w' cr => setCell w' "Mine Inventory" cr.1 cr.2 Value.vnone) wb :=
      (congrArg Prod.fst h).symm
    have hn : n = (analyze_formula_errors wb "Mine Inventory").length :=
      (congrArg Prod.snd h).symm
    subst hwb'
    refine ⟨?_, ?_, hn⟩
    · intro c r
      rw [clear_fold_cell]
      split
      · rfl
      · rename_i hnot
        by_cases he : isRefError (wb.cell "Mine Inventory" c r) = true
        · refine absurd ((mem_analyze_formula_errors wb "Mine Inventory" c r).mpr
            ⟨?_, ?_, ?_, ?_, he⟩) hnot
          all_goals
            by_contra hb
            rw [hwf "Mine Inventory" c r (by omega)] at he
            cases he
        · exact Bool.not_eq_true _ ▸ he
    · intro c r he
      rw [clear_fold_cell, if_pos]
      apply (mem_analyze_formula_errors wb "Mine Inventory" c r).mpr
      refine ⟨?_, ?_, ?_, ?_, he⟩
      all_goals
        by_contra hb
        rw [hwf "Mine Inventory" c r (by omega)] at he
        cases he
  · cases h

/-- A Mine Inventory workbook whose A1 cell holds a broken `#REF!`
formula. -/
def wbRef : Workbook :=
  { sheetnames := ["Mine Inventory"]
    cell := fun s c r =>
      if s = "Mine Inventory" ∧ c = 1 ∧ r = 1 then Value.vstr "=#REF!+B2" else Value.vnone
    maxCol := fun _ => 2
    maxRow := fun _ => 2
    dvRefs := [] }

theorem wbRef_wf : wbRef.wf := by
  intro s c r h
  by_cases hs : s = "Mine Inventory" ∧ c = 1 ∧ r = 1
  · exfalso
    obtain ⟨hs1, hs2, hs3⟩ := hs
    subst hs1; subst hs2; subst hs3
    rcases h with h | h | h | h | h
    · exact h (by decide)
    · omega
    · omega
    · rw [show wbRef.maxCol "Mine Inventory" = 2 from rfl] at h; omega
    · rw [show wbRef.maxRow "Mine Inventory" = 2 from rfl] at h; omega
  · show (if s = "Mine Inventory" ∧ c = 1 ∧ r = 1 then _ else Value.vnone) = Value.vnone
    rw [if_neg hs]

/-- Witness for C10 on the one-error workbook `wbRef`. -/
theorem c10_witness :
    isRefError (((analyze_formula_errors wbRef "Mine Inventory").foldl
      (fun w' cr => setCell w' "Mine Inventory" cr.1 cr.2 Value.vnone) wbRef).cell
        "Mine Inventory" 1 1) = false ∧
    1 = (analyze_formula_errors wbRef "Mine Inventory").length :=
  ⟨(c10_ref_clearing wbRef wbRef_wf _ 1 (by rfl)).1 1 1,
   (c10_ref_clearing wbRef wbRef_wf _ 1 (by rfl)).2.2⟩

/-! ### Claim C8 — determinism of formula text -/

theorem formulaTextOf_fmtTimestamp (t : Timestamp) :
    formulaTextOf (Value.vstr (fmtTimestamp t)) = none := by
  simp [formulaTextOf, isFormula_fmtTimestamp]

/-- The only time-dependent cell `create_model_health` (fully-dynamic
variant) writes is B4 of `Model Health`, and it receives the formatted
timestamp. -/
theorem health_fully_cell_time (w : Workbook) (t : Timestamp) :
    (create_model_health_fully w t).cell "Model Health" 2 4 =
      Value.vstr (fmtTimestamp t) := by
  simp [create_model_health_fully, setCells, cell_setCell]

theorem health_fully_cell_other (w : Workbook) (t1 t2 : Timestamp) (s : String) (c r : Nat)
    (h : ¬(s = "Model Health" ∧ c = 2 ∧ r = 4)) :
    (create_model_health_fully w t1).cell s c r =
      (create_model_health_fully w t2).cell s c r := by
  simp only [create_model_health_fully, setCells, List.foldl_cons, List.foldl_nil,
    cell_setCell]
  simp only [if_neg h]

/-- The only time-dependent cell `create_model_health` (complete variant)
writes is B4 of `Model Health`. -/
theorem health_complete_cell_time (w : Workbook) (t : Timestamp) :
    (create_model_health_complete w t).cell "Model Health" 2 4 =
      Value.vstr (fmtTimestamp t) := by
  simp [create_model_health_complete, setCells, cell_setCell]

theorem health_complete_cell_other (w : Workbook) (t1 t2 : Timestamp) (s : String)
    (c r : Nat) (h : ¬(s = "Model Health" ∧ c = 2 ∧ r = 4)) :
    (create_model_health_complete w t1).cell s c r =
      (create_model_health_complete w t2).cell s c r := by
  simp only [create_model_health_complete, setCells, List.foldl_cons, List.foldl_nil,
    cell_setCell]
  simp only [if_neg h]

/-- Mapping an observation over equal-by-continuation binds. -/
theorem map_bind_obs {α : Type} (obs : Workbook → α) (o : Option Workbook)
    (f g : Workbook → Option Workbook)
    (h : ∀ w, (f w).map obs = (g w).map obs) :
    (o.bind f).map obs = (o.bind g).map obs := by
  cases o with
  | none => rfl
  | some w => exact h w

/-- C8: for a fixed input workbook, two runs of the same patcher pipeline
at different wall-clock times produce identical formula text at every
cell: the only time-dependent write (the dashboard's timestamp cell) is
not formula text, and every other written string is a function of the
script's constants and the cell coordinates only.  Stated for the full
mutation pipelines of create_fully_dynamic_model.py and
create_complete_dynamic_model.py. -/
theorem c8_formula_text_deterministic (wb : Workbook) (t1 t2 : Timestamp)
    (s : String) (c r : Nat) :
    (createFullyDynamic_phases wb t1).map (fun w => formulaTextOf (w.cell s c r)) =
      (createFullyDynamic_phases wb t2).map (fun w => formulaTextOf (w.cell s c r)) ∧
    (createCompleteDynamic_phases wb t1).map (fun w => formulaTextOf (w.cell s c r)) =
      (createCompleteDynamic_phases wb t2).map (fun w => formulaTextOf (w.cell s c r)) := by
  constructor
  · rw [createFullyDynamic_phases, createFullyDynamic_phases]
    refine map_bind_obs _ _ _ _ (fun w1 => ?_)
    refine map_bind_obs _ _ _ _ (fun w2 => ?_)
    refine map_bind_obs _ _ _ _ (fun w4 => ?_)
    refine map_bind_obs _ _ _ _ (fun w5 => ?_)
    show some (formulaTextOf ((create_model_health_fully
        (update_other_sheet_headers w5) t1).cell s c r)) =
      some (formulaTextOf ((create_model_health_fully
        (update_other_sheet_headers w5) t2).cell s c r))
    congr 1
    by_cases h : s = "Model Health" ∧ c = 2 ∧ r = 4
    · obtain ⟨rfl, rfl, rfl⟩ := h
      rw [health_fully_cell_time, health_fully_cell_time,
        formulaTextOf_fmtTimestamp, formulaTextOf_fmtTimestamp]
    · rw [health_fully_cell_other _ t1 t2 _ _ _ h]
  · rw [createCompleteDynamic_phases, createCompleteDynamic_phases]
    refine map_bind_obs _ _ _ _ (fun w1 => ?_)
    refine map_bind_obs _ _ _ _ (fun w3 => ?_)
    refine map_bind_obs _ _ _ _ (fun w4 => ?_)
    refine map_bind_obs _ _ _ _ (fun w5 => ?_)
    refine map_bind_obs _ _ _ _ (fun w6 => ?_)
    show some (formulaTextOf ((create_model_health_complete
        (update_other_sheet_headers_complete w6) t1).cell s c r)) =
      some (formulaTextOf ((create_model_health_complete
        (update_other_sheet_headers_complete w6) t2).cell s c r))
    congr 1
    by_cases h : s = "Model Health" ∧ c = 2 ∧ r = 4
    · obtain ⟨rfl, rfl, rfl⟩ := h
      rw [health_complete_cell_time, health_complete_cell_time,
        formulaTextOf_fmtTimestamp, formulaTextOf_fmtTimestamp]
    · rw [health_complete_cell_other _ t1 t2 _ _ _ h]
